import Mathlib

/-!
Verification of the XNB asset-decoding core of the `aldrheim` repository.

Byte streams are shallowly embedded as `List Nat` (one entry per byte).
Fallible cursor reads become functions `ByteStream → Except DecodeErr (α × ByteStream)`.
IEEE-754 fields that are only framed (never arithmetically used) are kept as their
little-endian 32-bit bit patterns; floating-point values coming from XML text are
modelled as exact rationals.
-/

namespace Aldrheim

/-- A byte stream: the list of remaining bytes (each `< 256` for real inputs). -/
abbrev ByteStream := List Nat

/-- Decode outcomes distinguish I/O errors (truncation), `anyhow::bail!` format
errors, and Rust panics (e.g. out-of-bounds slice indexing, integer overflow in
debug builds), which are not recoverable decode errors. -/
inductive DecodeErr where
  | ioEof : DecodeErr
  | bail (msg : String) : DecodeErr
  | crash (msg : String) : DecodeErr
deriving DecidableEq, Repr

/-- The result of a cursor read: the value plus the remaining stream. -/
abbrev ReadM (α : Type) := Except DecodeErr (α × ByteStream)

/-- `byteorder::ReadBytesExt::read_u8`: one byte, I/O error at end of stream. -/
def readU8 : ByteStream → ReadM Nat
  | [] => .error .ioEof
  | b :: rest => .ok (b, rest)

/-- `Read::read_exact` into a buffer of `n` bytes: I/O error if fewer remain. -/
def readExact : Nat → ByteStream → ReadM (List Nat)
  | 0, s => .ok ([], s)
  | _ + 1, [] => .error .ioEof
  | n + 1, b :: rest => (readExact n rest).map (fun p => (b :: p.1, p.2))

/-- `reader.take(n).read_to_end(..)`: reads up to `n` bytes, never an error. -/
def readTake (n : Nat) (s : ByteStream) : ReadM (List Nat) :=
  .ok (s.take n, s.drop n)

/-- `byteorder` little-endian `u32`. -/
def readU32le : ByteStream → ReadM Nat
  | b0 :: b1 :: b2 :: b3 :: rest => .ok (b0 + 256 * b1 + 65536 * b2 + 16777216 * b3, rest)
  | _ => .error .ioEof

/-- `byteorder` big-endian `u16`. -/
def readU16be : ByteStream → ReadM Nat
  | b0 :: b1 :: rest => .ok (256 * b0 + b1, rest)
  | _ => .error .ioEof

/-- `byteorder` little-endian `f32`, kept as its 32-bit little-endian bit
pattern: the decoders only frame these fields and never compute with them. -/
def readF32le : ByteStream → ReadM Nat := readU32le

/-- The platform tag of an XNB container (`Platform`). -/
inductive Platform where
  | windows : Platform
  | windowsPhone : Platform
  | xbox360 : Platform
deriving DecidableEq, Repr

/-- The format version of an XNB container (`Version`). -/
inductive Version where
  | xna31 : Version
  | xna40 : Version
deriving DecidableEq, Repr

/-- The decoded container header (`Header`). -/
structure Header where
  platform : Platform
  version : Version
  hi_def : Bool
  compressed : Bool
  compressed_size : Nat
  uncompressed_size : Nat
deriving DecidableEq, Repr

/-- A parsed container: header plus opaque payload (`Xnb`). -/
structure Xnb where
  header : Header
  data : ByteStream
deriving DecidableEq, Repr

/-- `Xnb::read`: magic, platform, version, flags, sizes, then exactly
`compressed_size - header_size` payload bytes (read through `take`, which
tolerates truncation).  The `u32` subtraction panics on underflow in a debug
build, modelled by `DecodeErr.crash`. -/
def Xnb.read (s : ByteStream) : Except DecodeErr (Xnb × ByteStream) := do
  let (magic, s) ← readExact 3 s
  if magic ≠ [88, 78, 66] then
    .error (.bail ("not an XNB file"))
  else do
    let (pb, s) ← readU8 s
    let platform : Platform ←
      if pb = 119 then pure .windows
      else if pb = 109 then pure .windowsPhone
      else if pb = 120 then pure .xbox360
      else .error (.bail ("unknown platform"))
    let (vb, s) ← readU8 s
    let version : Version ←
      if vb = 4 then pure .xna31
      else if vb = 5 then pure .xna40
      else .error (.bail ("unknown version"))
    if version ≠ .xna31 then
      .error (.bail ("unsupported XNA version, only 3.1 is supported"))
    else do
      let (flags, s) ← readU8 s
      let hi_def := flags % 2 ≠ 0
      let compressed := flags / 128 % 2 ≠ 0
      let (compressed_size, s) ← readU32le s
      let (uncompressed_size, s) ←
        if compressed then readU32le s else pure (0, s)
      let header_size := if compressed then 14 else 10
      if compressed_size < header_size then
        .error (.crash ("attempt to subtract with overflow"))
      else do
        let data_size := compressed_size - header_size
        let (data, s) ← readTake data_size s
        .ok (⟨⟨platform, version, hi_def, compressed, compressed_size, uncompressed_size⟩, data⟩, s)

/-- The external LZX decompressor service (`lzxd::Lzxd`), §6: an abstract
stateful `decompress_next` carried across blocks of one payload. -/
structure LzxdModel (σ : Type) where
  init : σ
  next : σ → List Nat → Nat → Except DecodeErr (σ × List Nat)

/-- The block loop of `Xnb::decompress` (cursor position is the remaining
stream; the loop ends at end of payload or on a zero size).  `fuel` bounds the
iteration count, which the Rust loop bounds by stream progress. -/
def decompressLoop {σ : Type} (lzxd : LzxdModel σ) :
    Nat → σ → ByteStream → List Nat → Except DecodeErr (List Nat)
  | 0, _, _, _ => .error (.crash ("loop fuel exhausted"))
  | _ + 1, _, [], out => .ok out
  | fuel + 1, st, b :: rest, out => do
    let (frame_size, block_size, s) ←
      if b = 255 then do
        let (frame_size, r) ← readU16be rest
        let (block_size, r) ← readU16be r
        pure (frame_size, block_size, r)
      else do
        let (block_size, r) ← readU16be (b :: rest)
        pure (0x8000, block_size, r)
    if block_size = 0 ∨ frame_size = 0 then
      .ok out
    else do
      let (block, s) ← readExact block_size s
      let (st, frame) ← lzxd.next st block frame_size
      decompressLoop lzxd fuel st s (out ++ frame)

/-- `Xnb::decompress`: the uncompressed path returns the payload unchanged;
the compressed path walks the block framing through the external decompressor. -/
def Xnb.decompress {σ : Type} (lzxd : LzxdModel σ) (fuel : Nat) (x : Xnb) :
    Except DecodeErr (List Nat) :=
  if ¬ x.header.compressed then .ok x.data
  else decompressLoop lzxd fuel lzxd.init x.data []

/-- Modelled from the spec: `read_ext.rs` (declared by `mod read_ext;`) is not
in `src/`.  §4.3: the 7-bit-encoded varint reads at most 5 bytes, each
contributing 7 low bits (low to high); a set high bit continues; exceeding the
byte budget is a format error.  `remaining` counts permitted bytes. -/
def read7BitLoop : Nat → Nat → Nat → ByteStream → ReadM Nat
  | 0, _, _, _ => .error (.bail ("malformed 7-bit encoded integer"))
  | _ + 1, _, _, [] => .error .ioEof
  | remaining + 1, acc, shift, b :: rest =>
    let acc := acc + b % 128 * 2 ^ shift
    if b % 256 < 128 then .ok (acc, rest)
    else read7BitLoop remaining acc (shift + 7) rest

/-- Modelled from the spec (§4.3, `read_ext.rs` absent from `src/`): the
7-bit-encoded signed 32-bit integer; the accumulated bits are truncated to
32 and interpreted as a two's-complement `i32`. -/
def read7BitEncodedI32 (s : ByteStream) : Except DecodeErr (Int × ByteStream) :=
  (read7BitLoop 5 0 0 s).map (fun p =>
    (if p.1 % 2 ^ 32 < 2 ^ 31 then ((p.1 % 2 ^ 32 : Nat) : Int)
     else ((p.1 % 2 ^ 32 : Nat) : Int) - 2 ^ 32, p.2))

/-- Rust `i32 as usize` on a 64-bit target: sign extension to 64 bits. -/
def i32AsUsize (v : Int) : Nat :=
  if v < 0 then (v + 2 ^ 64).toNat else v.toNat

/-- Modelled from the spec (§4.3, `read_ext.rs` absent from `src/`): a string
is a 7-bit-encoded length followed by that many UTF-8 bytes.  The payload is
kept as raw bytes; UTF-8 decoding itself is not modelled. -/
def read7BitLengthString (s : ByteStream) : Except DecodeErr (List Nat × ByteStream) := do
  let (len, s) ← read7BitEncodedI32 s
  readExact (i32AsUsize len) s

/-- Modelled from the spec (§4.3, `read_ext.rs` absent from `src/`): a boolean
is one byte, nonzero meaning true. -/
def readBool (s : ByteStream) : ReadM Bool :=
  (readU8 s).map (fun p => (p.1 ≠ 0, p.2))

/-- Modelled from the spec (§4.3, `read_ext.rs` absent from `src/`): a Vec3 is
3 consecutive `f32`, kept as bit patterns. -/
def readVec3 (s : ByteStream) : Except DecodeErr (List Nat × ByteStream) := do
  let (x, s) ← readF32le s
  let (y, s) ← readF32le s
  let (z, s) ← readF32le s
  .ok ([x, y, z], s)

/-- Runs a read action `n` times in sequence (`for _ in 0..n` collect loops). -/
def readListM {α : Type} (act : ByteStream → ReadM α) : Nat → ByteStream → Except DecodeErr (List α × ByteStream)
  | 0, s => .ok ([], s)
  | n + 1, s => do
    let (v, s) ← act s
    let (vs, s) ← readListM act n s
    .ok (v :: vs, s)

/-- Modelled from the spec (§4.3, `read_ext.rs` absent from `src/`): a 4x4
matrix is 16 consecutive `f32`, kept as bit patterns. -/
def readMat4 (s : ByteStream) : ReadM (List Nat) :=
  readListM readF32le 16 s

/-- Little-endian `u32` encoding, used to build synthetic containers. -/
def u32leBytes (n : Nat) : List Nat :=
  [n % 256, n / 256 % 256, n / 65536 % 256, n / 16777216 % 256]

/-- The platform byte recognized by `Xnb::read`, as a partial map. -/
def platformOfByte (b : Nat) : Option Platform :=
  if b = 119 then some .windows
  else if b = 109 then some .windowsPhone
  else if b = 120 then some .xbox360
  else none

theorem u32le_reassemble (n : Nat) (h : n < 4294967296) :
    n % 256 + 256 * (n / 256 % 256) + 65536 * (n / 65536 % 256) +
      16777216 * (n / 16777216 % 256) = n := by
  omega

theorem readU32le_u32leBytes (n : Nat) (rest : ByteStream) :
    readU32le (u32leBytes n ++ rest) = .ok (n % 4294967296, rest) := by
  simp [u32leBytes, readU32le]
  omega

theorem readExact_succ (n : Nat) (b : Nat) (s : ByteStream) :
    readExact (n + 1) (b :: s) = (readExact n s).map (fun p => (b :: p.1, p.2)) := rfl

theorem readExact_zero (s : ByteStream) : readExact 0 s = .ok ([], s) := rfl

theorem testBit0_eq (flags : Nat) : (decide (flags % 2 ≠ 0)) = flags.testBit 0 := by
  rw [Nat.testBit_to_div_mod, decide_eq_decide]
  omega

theorem testBit7_eq (flags : Nat) : (decide (flags / 128 % 2 ≠ 0)) = flags.testBit 7 := by
  rw [Nat.testBit_to_div_mod, decide_eq_decide]
  norm_num

@[simp]
theorem except_bind_ok {ε α β : Type} (a : α) (f : α → Except ε β) :
    (Except.ok a : Except ε α) >>= f = f a := rfl

@[simp]
theorem except_bind_error {ε α β : Type} (e : ε) (f : α → Except ε β) :
    (Except.error e : Except ε α) >>= f = .error e := rfl

@[simp]
theorem except_map_ok {ε α β : Type} (a : α) (f : α → β) :
    (Except.ok a : Except ε α).map f = .ok (f a) := rfl

@[simp]
theorem except_map_error {ε α β : Type} (e : ε) (f : α → β) :
    (Except.error e : Except ε α).map f = .error e := rfl

@[simp]
theorem except_pure_eq {ε α : Type} (a : α) : (pure a : Except ε α) = .ok a := rfl

/-- C4: a synthetic container with valid magic, a recognized platform byte, the
single accepted version byte 4, a flag byte, sizes, and a sufficient payload is
recovered exactly: the decoded header holds those fields and the payload has
exactly `compressed_size - header_size` bytes (header size 14 when flag bit 7
is set, else 10).  Wrong magic, an unrecognized platform byte, and any version
byte other than 4 are hard decode errors. -/
theorem xnb_read_roundtrip_and_rejects :
    (∀ (pb : Nat) (pf : Platform) (flags csize usize : Nat) (rest : ByteStream),
      platformOfByte pb = some pf → csize < 4294967296 →
      ((flags.testBit 7 = true → 14 ≤ csize → csize - 14 ≤ rest.length →
        Xnb.read ([88, 78, 66, pb, 4, flags] ++ u32leBytes csize ++ u32leBytes usize ++ rest)
          = .ok (⟨⟨pf, .xna31, flags.testBit 0, true, csize, usize % 4294967296⟩,
                  rest.take (csize - 14)⟩, rest.drop (csize - 14)) ∧
        (rest.take (csize - 14)).length = csize - 14) ∧
      (flags.testBit 7 = false → 10 ≤ csize → csize - 10 ≤ rest.length →
        Xnb.read ([88, 78, 66, pb, 4, flags] ++ u32leBytes csize ++ rest)
          = .ok (⟨⟨pf, .xna31, flags.testBit 0, false, csize, 0⟩,
                  rest.take (csize - 10)⟩, rest.drop (csize - 10)) ∧
        (rest.take (csize - 10)).length = csize - 10))) ∧
    (∀ (m0 m1 m2 : Nat) (rest : ByteStream), ¬ (m0 = 88 ∧ m1 = 78 ∧ m2 = 66) →
      Xnb.read (m0 :: m1 :: m2 :: rest) = .error (.bail ("not an XNB file"))) ∧
    (∀ (pb : Nat) (rest : ByteStream), pb ≠ 119 → pb ≠ 109 → pb ≠ 120 →
      Xnb.read ([88, 78, 66, pb] ++ rest) = .error (.bail ("unknown platform"))) ∧
    (∀ (pb : Nat) (pf : Platform) (vb : Nat) (rest : ByteStream),
      platformOfByte pb = some pf → vb ≠ 4 →
      ∃ msg, Xnb.read ([88, 78, 66, pb, vb] ++ rest) = .error (.bail msg)) := by
  refine ⟨?_, ?_, ?_, ?_⟩
  · intro pb pf flags csize usize rest hpf hcs
    have hpb : pb = 119 ∧ pf = .windows ∨ pb = 109 ∧ pf = .windowsPhone ∨
        pb = 120 ∧ pf = .xbox360 := by
      by_cases h1 : pb = 119 <;> by_cases h2 : pb = 109 <;> by_cases h3 : pb = 120 <;>
        simp [platformOfByte, h1, h2, h3] at hpf <;> simp_all
    constructor
    · intro h7 h14 hlen
      have hc : flags / 128 % 2 ≠ 0 := by
        have := testBit7_eq flags
        rw [h7] at this
        exact of_decide_eq_true this
      have hc1 : flags / 128 % 2 = 1 := by omega
      have hmod : csize % 4294967296 = csize := Nat.mod_eq_of_lt hcs
      rcases hpb with ⟨hb, hf⟩ | ⟨hb, hf⟩ | ⟨hb, hf⟩ <;> subst hb <;> subst hf <;>
        simp [Xnb.read, readExact_succ, readExact_zero, readU8, List.append_assoc,
          readU32le_u32leBytes, readTake, hc1, hmod, ← testBit0_eq, h14,
          Nat.not_lt.mpr h14, List.length_take, Nat.min_eq_left hlen]
    · intro h7 h10 hlen
      have hc : ¬ flags / 128 % 2 ≠ 0 := by
        intro hne
        have := testBit7_eq flags
        rw [h7] at this
        exact hne (by simpa using of_decide_eq_false this)
      have hc0 : flags / 128 % 2 = 0 := by omega
      have hmod : csize % 4294967296 = csize := Nat.mod_eq_of_lt hcs
      rcases hpb with ⟨hb, hf⟩ | ⟨hb, hf⟩ | ⟨hb, hf⟩ <;> subst hb <;> subst hf <;>
        simp [Xnb.read, readExact_succ, readExact_zero, readU8, List.append_assoc,
          readU32le_u32leBytes, readTake, hc0, hmod, ← testBit0_eq, h10,
          Nat.not_lt.mpr h10, List.length_take, Nat.min_eq_left hlen]
  · intro m0 m1 m2 rest h
    simp [Xnb.read, readExact_succ, readExact_zero, h]
  · intro pb rest h1 h2 h3
    simp [Xnb.read, readExact_succ, readExact_zero, readU8, h1, h2, h3]
  · intro pb pf vb rest hpf hv4
    have hpb : pb = 119 ∨ pb = 109 ∨ pb = 120 := by
      by_cases h1 : pb = 119 <;> by_cases h2 : pb = 109 <;> by_cases h3 : pb = 120 <;>
        simp [platformOfByte, h1, h2, h3] at hpf <;> simp_all
    by_cases hv5 : vb = 5
    · refine ⟨("unsupported XNA version, only 3.1 is supported"), ?_⟩
      rcases hpb with hb | hb | hb <;> subst hb <;>
        simp [Xnb.read, readExact_succ, readExact_zero, readU8, hv4, hv5]
    · refine ⟨("unknown version"), ?_⟩
      rcases hpb with hb | hb | hb <;> subst hb <;>
        simp [Xnb.read, readExact_succ, readExact_zero, readU8, hv4, hv5]

/-- Witness for C4: a concrete uncompressed container round-trips, and a
concrete wrong-magic stream is rejected. -/
theorem xnb_read_roundtrip_and_rejects_witness :
    Xnb.read ([88, 78, 66, 119, 4, 1] ++ u32leBytes 12 ++ [250, 251]) =
      .ok (⟨⟨.windows, .xna31, true, false, 12, 0⟩, [250, 251]⟩, ([] : ByteStream)) ∧
    Xnb.read [0, 78, 66] = .error (.bail ("not an XNB file")) := by
  constructor
  · have h := ((xnb_read_roundtrip_and_rejects.1 119 .windows 1 12 0 [250, 251]
      (by decide) (by decide)).2 (by decide) (by decide) (by decide)).1
    simpa using h
  · exact xnb_read_roundtrip_and_rejects.2.1 0 78 66 [] (by decide)

/-- C9: when the header's compressed flag is false, `Xnb::decompress` returns
the stored payload unchanged byte-for-byte, for any external decompressor. -/
theorem decompress_uncompressed_identity {σ : Type} (lzxd : LzxdModel σ) (fuel : Nat)
    (x : Xnb) (h : x.header.compressed = false) :
    Xnb.decompress lzxd fuel x = .ok x.data := by
  simp [Xnb.decompress, h]

/-- Witness for C9 at a concrete uncompressed container. -/
theorem decompress_uncompressed_identity_witness :
    Xnb.decompress ⟨(), fun st _ _ => .ok (st, [])⟩ 1
      ⟨⟨.windows, .xna31, false, false, 13, 0⟩, [1, 2, 3]⟩ = .ok [1, 2, 3] :=
  decompress_uncompressed_identity _ 1 _ rfl

/-- A visual-effect keyframe (`VisualEffectPropertyKeyframe`): a `u32` frame
time and an `f32` value, the latter modelled as an exact rational. -/
structure VisualEffectPropertyKeyframe where
  time : Nat
  value : ℚ
deriving DecidableEq, Repr

/-- A visual-effect property (`VisualEffectProperty`): constant or keyframed. -/
inductive VisualEffectProperty where
  | Constant (v : ℚ) : VisualEffectProperty
  | Animated (keyframes : List VisualEffectPropertyKeyframe) : VisualEffectProperty
deriving DecidableEq, Repr

/-- `keyframes.sort_by_key(|frame| frame.time)`: a stable sort by time,
modelled by `List.mergeSort` (also a stable sort). -/
def sortKeyframes (l : List VisualEffectPropertyKeyframe) :
    List VisualEffectPropertyKeyframe :=
  l.mergeSort (fun a b => a.time ≤ b.time)

/-- `keyframes.dedup_by_key(|frame| frame.time)`: removes consecutive
keyframes with equal time, keeping the first of each run. -/
def dedupKeyframes : List VisualEffectPropertyKeyframe → List VisualEffectPropertyKeyframe
  | [] => []
  | [a] => [a]
  | a :: b :: rest =>
    if b.time = a.time then dedupKeyframes (a :: rest)
    else a :: dedupKeyframes (b :: rest)
termination_by l => l.length

/-- The keyframe-list branch of `VisualEffectProperty::read` (empty check,
then sort by time and dedup by time). -/
def processKeyframes (name : String)
    (keyframes : List VisualEffectPropertyKeyframe) :
    Except DecodeErr VisualEffectProperty :=
  if keyframes.isEmpty then
    .error (.bail (("expected <") ++ name ++ ("> node to have <Key> children")))
  else
    .ok (.Animated (dedupKeyframes (sortKeyframes keyframes)))

/-- An XML element (`roxmltree::Node`), restricted to element nodes: the
decoders filter out non-element children before use. -/
inductive XmlNode where
  | elem (tag : String) (attrs : List (String × String)) (children : List XmlNode)

/-- The element's tag name. -/
def XmlNode.tag : XmlNode → String
  | .elem t _ _ => t

/-- The element's attributes, as name/value pairs. -/
def XmlNode.attrs : XmlNode → List (String × String)
  | .elem _ a _ => a

/-- The element's child elements. -/
def XmlNode.children : XmlNode → List XmlNode
  | .elem _ _ c => c

/-- `roxmltree::Node::attribute(name)`: exact-name attribute lookup. -/
def XmlNode.attribute (n : XmlNode) (name : String) : Option String :=
  (n.attrs.find? (fun a => a.1 = name)).map (fun a => a.2)

/-- ASCII lowercasing (Rust `to_lowercase`/`eq_ignore_ascii_case` on the ASCII
content the format uses), on the character list so that it evaluates in the
kernel. -/
def asciiLower (s : String) : String :=
  String.mk (s.data.map Char.toLower)

/-- The case-insensitive `value`-attribute lookup
(`attributes().find(|attr| attr.name().eq_ignore_ascii_case("value"))`). -/
def XmlNode.valueAttr (n : XmlNode) : Option String :=
  (n.attrs.find? (fun a => asciiLower a.1 = ("value" : String))).map (fun a => a.2)

section VfxRead

/- The numeric `str::parse` routines of the Rust standard library are external
to the repository; the readers are parameterized over them. -/
variable (parseF32 : String → Option ℚ) (parseU32 : String → Option Nat)

/-- `VisualEffectPropertyKeyframe::read`: requires `time` and `value`
attributes (exact names) and parses them as `u32` and `f32`. -/
def VisualEffectPropertyKeyframe.read (node : XmlNode) :
    Except DecodeErr VisualEffectPropertyKeyframe := do
  let time ←
    match node.attribute ("time") with
    | some t =>
      match parseU32 t with
      | some v => pure v
      | none => .error (.bail ("unable to parse vfx property keyframe time"))
    | none => .error (.bail ("expected <Key> node to have a 'time' attribute"))
  let value ←
    match node.attribute ("value") with
    | some t =>
      match parseF32 t with
      | some v => pure v
      | none => .error (.bail ("unable to parse vfx property keyframe value"))
    | none => .error (.bail ("expected <Key> node to have a 'value' attribute"))
  .ok ⟨time, value⟩

/-- The `<Key>`-collection loop of `VisualEffectProperty::read`: children with
other tags are skipped, each `<Key>` is parsed in order. -/
def collectKeyframes : List XmlNode → Except DecodeErr (List VisualEffectPropertyKeyframe)
  | [] => .ok []
  | c :: rest =>
    if c.tag ≠ ("Key" : String) then collectKeyframes rest
    else do
      let kf ← VisualEffectPropertyKeyframe.read parseF32 parseU32 c
      let kfs ← collectKeyframes rest
      .ok (kf :: kfs)

/-- `VisualEffectProperty::read`: a case-insensitive `value` attribute yields a
constant; otherwise the `<Key>` children are collected, must be non-empty, and
are sorted by time and deduplicated by time. -/
def VisualEffectProperty.read (node : XmlNode) : Except DecodeErr VisualEffectProperty :=
  match node.valueAttr with
  | some v =>
    match parseF32 v with
    | some q => .ok (.Constant q)
    | none => .error (.bail ("unable to parse property value"))
  | none => do
    let keyframes ← collectKeyframes parseF32 parseU32 node.children
    processKeyframes node.tag keyframes

end VfxRead

/-- `scene::vfx::lerp`. -/
def lerp (a b f : ℚ) : ℚ := a + ((b - a) * f)

/-- Rust `f32 as u32`: saturating truncation toward zero (negative inputs give
0, values beyond `u32::MAX` give `u32::MAX`). -/
def f32AsU32 (q : ℚ) : Nat :=
  if q < 0 then 0 else min q.floor.toNat (2 ^ 32 - 1)

/-- The `windows(2)` scan of `VisualEffectProperty::interpolate`: the first
adjacent pair whose times bracket the frame is linearly interpolated.  `none`
models the `unreachable!()` fall-through. -/
def scanKeyframeWindows : List VisualEffectPropertyKeyframe → Nat → Option ℚ
  | f0 :: f1 :: rest, frame_time =>
    if f0.time ≤ frame_time ∧ frame_time ≤ f1.time then
      some (lerp f0.value f1.value
        (((frame_time - f0.time : Nat) : ℚ) / ((f1.time - f0.time : Nat) : ℚ)))
    else scanKeyframeWindows (f1 :: rest) frame_time
  | _, _ => none

/-- `VisualEffectProperty::interpolate(current_time, fps)`: `none` models the
`assert!`/`unreachable!` panics on an empty or non-bracketing keyframe list. -/
def VisualEffectProperty.interpolate (p : VisualEffectProperty) (current_time : ℚ)
    (fps : Nat) : Option ℚ :=
  match p with
  | .Constant v => some v
  | .Animated keyframes =>
    match keyframes with
    | [] => none
    | first :: tail =>
      let frame_time := f32AsU32 (current_time * (fps : ℚ))
      if frame_time ≤ first.time then some first.value
      else
        let last := (first :: tail).getLast (by simp)
        if last.time ≤ frame_time then some last.value
        else scanKeyframeWindows (first :: tail) frame_time

instance : IsTrans VisualEffectPropertyKeyframe (fun a b => a.time < b.time) :=
  ⟨fun _ _ _ h1 h2 => Nat.lt_trans h1 h2⟩

instance : IsTrans VisualEffectPropertyKeyframe (fun a b => a.time ≤ b.time) :=
  ⟨fun _ _ _ h1 h2 => Nat.le_trans h1 h2⟩

theorem head_time_lt_getLast (a b : VisualEffectPropertyKeyframe)
    (rest : List VisualEffectPropertyKeyframe)
    (hs : (a :: b :: rest).Chain' (fun x y => x.time < y.time)) :
    a.time < (((b :: rest).getLast (by simp)).time) := by
  have hp : (a :: b :: rest).Pairwise (fun x y => x.time < y.time) :=
    List.chain'_iff_pairwise.mp hs
  exact (List.pairwise_cons.mp hp).1 _ (List.getLast_mem (by simp))

theorem scan_finds_bracket :
    ∀ (l : List VisualEffectPropertyKeyframe) (hne : l ≠ [])
      (_ : l.Chain' (fun a b => a.time < b.time)) (ft : Nat),
      (l.head hne).time < ft → ft < (l.getLast hne).time →
      ∃ (i : Nat) (h1 : i < l.length) (h2 : i + 1 < l.length),
        (l.get ⟨i, h1⟩).time ≤ ft ∧ ft ≤ (l.get ⟨i + 1, h2⟩).time ∧
        scanKeyframeWindows l ft =
          some (lerp (l.get ⟨i, h1⟩).value (l.get ⟨i + 1, h2⟩).value
            (((ft - (l.get ⟨i, h1⟩).time : Nat) : ℚ) /
             (((l.get ⟨i + 1, h2⟩).time - (l.get ⟨i, h1⟩).time : Nat) : ℚ))) := by
  intro l
  induction l with
  | nil => intro hne; exact absurd rfl hne
  | cons a t ih =>
    intro hne hs ft hfirst hlast
    match t with
    | [] =>
      simp [List.getLast] at hlast
      simp [List.head_cons] at hfirst
      omega
    | b :: rest =>
      by_cases hbr : ft ≤ b.time
      · refine ⟨0, by simp, by simp, ?_, ?_, ?_⟩
        · simpa using Nat.le_of_lt (by simpa using hfirst)
        · simpa using hbr
        · have hcond : a.time ≤ ft ∧ ft ≤ b.time :=
            ⟨Nat.le_of_lt (by simpa using hfirst), hbr⟩
          simp [scanKeyframeWindows, hcond]
      · have hb : b.time < ft := Nat.lt_of_not_le hbr
        have hne2 : b :: rest ≠ [] := by simp
        have hs2 : (b :: rest).Chain' (fun a b => a.time < b.time) := hs.tail
        have hlast2 : ft < ((b :: rest).getLast hne2).time := by
          rwa [List.getLast_cons hne2] at hlast
        obtain ⟨i, h1, h2, hl, hr, hscan⟩ :=
          ih hne2 hs2 ft (by simpa using hb) hlast2
        refine ⟨i + 1, by simpa using Nat.succ_lt_succ h1,
          by simpa using Nat.succ_lt_succ h2, ?_, ?_, ?_⟩
        · simpa using hl
        · simpa using hr
        · have hcond : ¬ (a.time ≤ ft ∧ ft ≤ b.time) := by
            intro hc
            omega
          simpa [scanKeyframeWindows, hcond] using hscan

/-- C2: `interpolate` returns the constant for `Constant`; for a non-empty,
strictly-ascending `Animated` list it converts `current_time * fps` to a frame
index, clamps to the first/last keyframe value outside the time range, and
otherwise linearly interpolates a bracketing pair with
`t = (frame - f0.time) / (f1.time - f0.time)`; the boundary example
`[(0,0),(10,1)]` at fps 1 gives 0, 1/2, 1 at times -5, 5, 15. -/
theorem interpolate_constant_clamp_lerp :
    (∀ (v t : ℚ) (fps : Nat), (VisualEffectProperty.Constant v).interpolate t fps = some v) ∧
    (∀ (l : List VisualEffectPropertyKeyframe) (hne : l ≠ [])
      (_ : l.Chain' (fun a b => a.time < b.time)) (t : ℚ) (fps : Nat),
      (f32AsU32 (t * (fps : ℚ)) ≤ (l.head hne).time →
        (VisualEffectProperty.Animated l).interpolate t fps = some (l.head hne).value) ∧
      ((l.getLast hne).time ≤ f32AsU32 (t * (fps : ℚ)) →
        (VisualEffectProperty.Animated l).interpolate t fps = some (l.getLast hne).value) ∧
      ((l.head hne).time < f32AsU32 (t * (fps : ℚ)) →
        f32AsU32 (t * (fps : ℚ)) < (l.getLast hne).time →
        ∃ (i : Nat) (h1 : i < l.length) (h2 : i + 1 < l.length),
          (l.get ⟨i, h1⟩).time ≤ f32AsU32 (t * (fps : ℚ)) ∧
          f32AsU32 (t * (fps : ℚ)) ≤ (l.get ⟨i + 1, h2⟩).time ∧
          (VisualEffectProperty.Animated l).interpolate t fps =
            some (lerp (l.get ⟨i, h1⟩).value (l.get ⟨i + 1, h2⟩).value
              (((f32AsU32 (t * (fps : ℚ)) - (l.get ⟨i, h1⟩).time : Nat) : ℚ) /
               (((l.get ⟨i + 1, h2⟩).time - (l.get ⟨i, h1⟩).time : Nat) : ℚ))))) ∧
    ((VisualEffectProperty.Animated [⟨0, 0⟩, ⟨10, 1⟩]).interpolate (-5) 1 = some 0 ∧
     (VisualEffectProperty.Animated [⟨0, 0⟩, ⟨10, 1⟩]).interpolate 5 1 = some (1 / 2) ∧
     (VisualEffectProperty.Animated [⟨0, 0⟩, ⟨10, 1⟩]).interpolate 15 1 = some 1) := by
  refine ⟨fun v t fps => rfl, ?_, ?conc1, ?conc2, ?conc3⟩
  case conc1 =>
    norm_num [VisualEffectProperty.interpolate, f32AsU32, scanKeyframeWindows, lerp,
      List.getLast]
  case conc2 =>
    norm_num [VisualEffectProperty.interpolate, f32AsU32, scanKeyframeWindows, lerp,
      List.getLast, Rat.floor_def']
    rw [show Int.toNat 5 = 5 from rfl]
    norm_num
  case conc3 =>
    norm_num [VisualEffectProperty.interpolate, f32AsU32, scanKeyframeWindows, lerp,
      List.getLast, Rat.floor_def']
  intro l hne hs t fps
  match l with
  | first :: tail =>
    refine ⟨?_, ?_, ?_⟩
    · intro hle
      simp only [VisualEffectProperty.interpolate]
      rw [if_pos (by simpa using hle)]
      simp
    · intro hge
      simp only [VisualEffectProperty.interpolate]
      by_cases hfe : f32AsU32 (t * (fps : ℚ)) ≤ first.time
      · rw [if_pos hfe]
        match tail with
        | [] => simp [List.getLast]
        | b :: rest =>
          exfalso
          have hlt := head_time_lt_getLast first b rest hs
          rw [List.getLast_cons (by simp)] at hge
          simp only [List.head_cons] at hfe
          omega
      · rw [if_neg hfe]
        rw [if_pos (by simpa using hge)]
    · intro hlt1 hlt2
      simp only [List.head_cons] at hlt1
      obtain ⟨i, h1, h2, hl, hr, hscan⟩ :=
        scan_finds_bracket (first :: tail) hne hs (f32AsU32 (t * (fps : ℚ)))
          (by simpa using hlt1) hlt2
      refine ⟨i, h1, h2, hl, hr, ?_⟩
      simp only [VisualEffectProperty.interpolate]
      rw [if_neg (Nat.not_le.mpr hlt1)]
      rw [if_neg (Nat.not_le.mpr hlt2)]
      exact hscan

/-- Witness for C2 at the claim's own boundary example. -/
theorem interpolate_constant_clamp_lerp_witness :
    (VisualEffectProperty.Animated [⟨0, 0⟩, ⟨10, 1⟩]).interpolate (-1) 1 = some 0 :=
  (interpolate_constant_clamp_lerp.2.1 [⟨0, 0⟩, ⟨10, 1⟩] (by simp)
    (by norm_num [List.chain'_cons]) (-1) 1).1
    (by norm_num [f32AsU32])

theorem mem_dedupKeyframes : ∀ (l : List VisualEffectPropertyKeyframe)
    (x : VisualEffectPropertyKeyframe), x ∈ dedupKeyframes l → x ∈ l
  | [], x, h => by simp [dedupKeyframes] at h
  | [a], x, h => by simpa [dedupKeyframes] using h
  | a :: b :: rest, x, h => by
    rw [dedupKeyframes] at h
    by_cases hab : b.time = a.time
    · rw [if_pos hab] at h
      have := mem_dedupKeyframes (a :: rest) x h
      simp at this
      rcases this with h1 | h1 <;> simp [h1]
    · rw [if_neg hab] at h
      simp at h
      rcases h with h1 | h1
      · simp [h1]
      · have := mem_dedupKeyframes (b :: rest) x h1
        simp at this
        rcases this with h2 | h2 <;> simp [h2]
termination_by l => l.length

theorem dedupKeyframes_pairwise_lt : ∀ (l : List VisualEffectPropertyKeyframe),
    l.Pairwise (fun a b => a.time ≤ b.time) →
    (dedupKeyframes l).Pairwise (fun a b => a.time < b.time)
  | [], _ => by simp [dedupKeyframes]
  | [a], _ => by simp [dedupKeyframes]
  | a :: b :: rest, hp => by
    rw [dedupKeyframes]
    by_cases hab : b.time = a.time
    · rw [if_pos hab]
      refine dedupKeyframes_pairwise_lt (a :: rest) ?_
      exact hp.sublist (by
        refine List.cons_sublist_cons.mpr ?_
        exact List.sublist_cons_self b rest)
    · rw [if_neg hab]
      have hp2 := List.pairwise_cons.mp hp
      have hab' : a.time < b.time := by
        have := hp2.1 b (by simp)
        omega
      refine List.pairwise_cons.mpr ⟨?_, dedupKeyframes_pairwise_lt (b :: rest) hp2.2⟩
      intro x hx
      have hmem := mem_dedupKeyframes (b :: rest) x hx
      simp at hmem
      rcases hmem with h1 | h1
      · subst h1
        omega
      · have := (List.pairwise_cons.mp hp2.2).1 x h1
        omega
termination_by l => l.length

theorem dedupKeyframes_length : ∀ (l : List VisualEffectPropertyKeyframe),
    l.Pairwise (fun a b => a.time ≤ b.time) →
    (dedupKeyframes l).length = (l.map (fun k => k.time)).toFinset.card
  | [], _ => by simp [dedupKeyframes]
  | [a], _ => by simp [dedupKeyframes]
  | a :: b :: rest, hp => by
    rw [dedupKeyframes]
    by_cases hab : b.time = a.time
    · rw [if_pos hab]
      have hsub : (a :: rest).Pairwise (fun x y => x.time ≤ y.time) :=
        hp.sublist (List.cons_sublist_cons.mpr (List.sublist_cons_self b rest))
      rw [dedupKeyframes_length (a :: rest) hsub]
      simp only [List.map_cons, List.toFinset_cons]
      rw [hab, Finset.insert_idem]
    · rw [if_neg hab]
      have hp2 := List.pairwise_cons.mp hp
      have hab' : a.time < b.time := by
        have := hp2.1 b (by simp)
        omega
      have hnotmem : a.time ∉ ((b :: rest).map (fun k => k.time)).toFinset := by
        simp only [List.mem_toFinset, List.mem_map]
        rintro ⟨x, hx, hxt⟩
        simp at hx
        rcases hx with h1 | h1
        · subst h1
          omega
        · have := (List.pairwise_cons.mp hp2.2).1 x h1
          omega
      have hfs : ((a :: b :: rest).map (fun k => k.time)).toFinset =
          insert a.time (((b :: rest).map (fun k => k.time)).toFinset) := by
        simp
      rw [List.length_cons, dedupKeyframes_length (b :: rest) hp2.2, hfs,
        Finset.card_insert_of_not_mem hnotmem]
termination_by l => l.length

theorem perm_toFinset {l l' : List Nat} (h : l.Perm l') : l.toFinset = l'.toFinset := by
  ext x
  simp [List.mem_toFinset, h.mem_iff]

theorem sortKeyframes_pairwise_le (kfs : List VisualEffectPropertyKeyframe) :
    (sortKeyframes kfs).Pairwise (fun a b => a.time ≤ b.time) := by
  have h := @List.sorted_mergeSort VisualEffectPropertyKeyframe
    (fun a b : VisualEffectPropertyKeyframe => decide (a.time ≤ b.time))
    (fun a b c hab hbc => by
      simp only [decide_eq_true_eq] at hab hbc ⊢
      omega)
    (fun a b => by
      simp only [Bool.or_eq_true, decide_eq_true_eq]
      omega) kfs
  exact h.imp (fun hb => of_decide_eq_true hb)

/-- C3: a property built by `VisualEffectProperty::read` from `<Key>` children
parsed in any order (duplicates allowed) is `Animated` with a keyframe list
strictly ascending by time (hence duplicate-free) whose length is the number
of distinct input times. -/
theorem read_animated_sorted_dedup (pF32 : String → Option ℚ)
    (pU32 : String → Option Nat) (node : XmlNode)
    (kfs : List VisualEffectPropertyKeyframe)
    (hval : node.valueAttr = none)
    (hcol : collectKeyframes pF32 pU32 node.children = .ok kfs)
    (hne : kfs ≠ []) :
    ∃ l, VisualEffectProperty.read pF32 pU32 node = .ok (.Animated l) ∧
      l.Pairwise (fun a b => a.time < b.time) ∧
      l.length = (kfs.map (fun k => k.time)).dedup.length := by
  refine ⟨dedupKeyframes (sortKeyframes kfs), ?_, ?_, ?_⟩
  · simp only [VisualEffectProperty.read, hval, hcol, except_bind_ok, processKeyframes]
    rw [if_neg (by simpa [List.isEmpty_iff] using hne)]
  · exact dedupKeyframes_pairwise_lt _ (sortKeyframes_pairwise_le kfs)
  · rw [dedupKeyframes_length _ (sortKeyframes_pairwise_le kfs)]
    have hperm : ((sortKeyframes kfs).map (fun k => k.time)).Perm
        (kfs.map (fun k => k.time)) := (List.mergeSort_perm kfs _).map _
    rw [perm_toFinset hperm, List.card_toFinset]

/-- A toy numeral parser standing in for `str::parse` in concrete witnesses. -/
def toyParseNat (s : String) : Option Nat :=
  if s = ("0") then some 0
  else if s = ("1") then some 1
  else if s = ("2") then some 2
  else if s = ("3") then some 3
  else if s = ("4") then some 4
  else if s = ("5") then some 5
  else if s = ("10") then some 10
  else none

/-- Witness for C3: four keys with times 10, 0, 10, 5 (one duplicate) yield a
strictly ascending three-element list. -/
theorem read_animated_sorted_dedup_witness :
    ∃ l, VisualEffectProperty.read (fun s => (toyParseNat s).map (fun n => (n : ℚ)))
        toyParseNat
        (.elem ("SizeStartMin") []
          [.elem ("Key") [(("time"), ("10")), (("value"), ("1"))] [],
           .elem ("Key") [(("time"), ("0")), (("value"), ("2"))] [],
           .elem ("Key") [(("time"), ("10")), (("value"), ("3"))] [],
           .elem ("Key") [(("time"), ("5")), (("value"), ("4"))] []]) =
        .ok (.Animated l) ∧
      l.Pairwise (fun a b => a.time < b.time) ∧
      l.length = ([⟨10, 1⟩, ⟨0, 2⟩, ⟨10, 3⟩,
        (⟨5, 4⟩ : VisualEffectPropertyKeyframe)].map (fun k => k.time)).dedup.length :=
  read_animated_sorted_dedup _ _ _ [⟨10, 1⟩, ⟨0, 2⟩, ⟨10, 3⟩, ⟨5, 4⟩]
    (by rfl) (by rfl) (by simp)

/-- `byteorder` little-endian `u16`. -/
def readU16le : ByteStream → ReadM Nat
  | b0 :: b1 :: rest => .ok (b0 + 256 * b1, rest)
  | _ => .error .ioEof

/-- The recognized pixel formats (`PixelFormat`): Color = 1, Bc1 = 28, Bc3 = 32. -/
inductive PixelFormat where
  | Color : PixelFormat
  | Bc1 : PixelFormat
  | Bc3 : PixelFormat
deriving DecidableEq, Repr

/-- `PixelFormat::from_repr` (strum): the closed discriminant set. -/
def PixelFormat.fromRepr (v : Nat) : Option PixelFormat :=
  if v = 1 then some .Color
  else if v = 28 then some .Bc1
  else if v = 32 then some .Bc3
  else none

/-- `PixelFormat::block_dim`: block width/height in pixels. -/
def PixelFormat.block_dim : PixelFormat → Nat
  | .Color => 1
  | .Bc1 => 4
  | .Bc3 => 4

/-- `PixelFormat::block_size`: block size in bytes. -/
def PixelFormat.block_size : PixelFormat → Nat
  | .Color => 4
  | .Bc1 => 8
  | .Bc3 => 8

/-- A decoded 2D texture (`Texture2D`): format, dimensions, raw mip blocks. -/
structure Texture2D where
  format : PixelFormat
  width : Nat
  height : Nat
  mips : List (List Nat)
deriving DecidableEq, Repr

/-- One mip block of `Texture2D::read`: a `u32` size then that many raw bytes. -/
def readMipBlock (s : ByteStream) : Except DecodeErr (List Nat × ByteStream) := do
  let (size, s) ← readU32le s
  readExact size s

/-- `Texture2D::read`: format code (validated), width, height, mip count, then
that many size-prefixed raw mip blocks. -/
def Texture2D.read (s : ByteStream) : Except DecodeErr (Texture2D × ByteStream) := do
  let (fmtRaw, s) ← readU32le s
  let format : PixelFormat ←
    match PixelFormat.fromRepr fmtRaw with
    | some f => pure f
    | none => .error (.bail ("unknown texture format"))
  let (width, s) ← readU32le s
  let (height, s) ← readU32le s
  let (mip_count, s) ← readU32le s
  let (mips, s) ← readListM readMipBlock mip_count s
  .ok (⟨format, width, height, mips⟩, s)

/-- Rust `u32::div_ceil`. -/
def divCeilU32 (a b : Nat) : Nat :=
  a / b + (if a % b = 0 then 0 else 1)

/-- `Texture2D::bytes_per_row`: `none` models the debug-build overflow panic of
`2u32.pow(mip_index)` for `mip_index ≥ 32`; otherwise blocks-per-row times
block size, with the mip width `width / 2^mip_index` (no clamping). -/
def Texture2D.bytes_per_row (t : Texture2D) (mip_index : Nat) : Option Nat :=
  if 4294967296 ≤ 2 ^ mip_index then none
  else some (divCeilU32 (t.width / 2 ^ mip_index) t.format.block_dim * t.format.block_size)

/-- `Texture2D::rows_per_image`: blocks per column, same conventions. -/
def Texture2D.rows_per_image (t : Texture2D) (mip_index : Nat) : Option Nat :=
  if 4294967296 ≤ 2 ^ mip_index then none
  else some (divCeilU32 (t.height / 2 ^ mip_index) t.format.block_dim)

/-- The claim's formula for C7 (spec wording): mip dimensions clamped to at
least one block. -/
def bytesPerRowClaim (t : Texture2D) (mip_index : Nat) : Nat :=
  max 1 (divCeilU32 (t.width / 2 ^ mip_index) t.format.block_dim) * t.format.block_size

/-- The claim's formula for C7 (spec wording) for the row count. -/
def rowsPerImageClaim (t : Texture2D) (mip_index : Nat) : Nat :=
  max 1 (divCeilU32 (t.height / 2 ^ mip_index) t.format.block_dim)

/-- Counterexample for C7: a decoded 1x1 Color texture with two mips has
`bytes_per_row(1) = 0` (mip width `1 >> 1 = 0` is not clamped to one block),
while the claim's clamped formula gives 4. -/
theorem bytes_per_row_no_clamp_counterexample :
    Texture2D.read (u32leBytes 1 ++ u32leBytes 1 ++ u32leBytes 1 ++ u32leBytes 2 ++
        u32leBytes 0 ++ u32leBytes 0) = .ok (⟨.Color, 1, 1, [[], []]⟩, []) ∧
    (Texture2D.mk .Color 1 1 [[], []]).bytes_per_row 1 = some 0 ∧
    bytesPerRowClaim ⟨.Color, 1, 1, [[], []]⟩ 1 = 4 ∧ (0 : Nat) ≠ 4 := by
  refine ⟨by rfl, by rfl, by rfl, by decide⟩

/-- C7 (amended): `bytes_per_row`/`rows_per_image` follow the
`ceil(mip_dim / block_dim) * size` formulas with mip dimensions
`base >> mip_index` and NO clamping: they agree with the claim's clamped
formula whenever the shifted dimension is nonzero, and yield 0 when it is
zero.  The claim's own 2x2 Color scenario holds. -/
theorem bytes_per_row_rows_per_image :
    (∀ (t : Texture2D) (i : Nat), 2 ^ i < 4294967296 →
      (0 < t.width / 2 ^ i → t.bytes_per_row i = some (bytesPerRowClaim t i)) ∧
      (t.width / 2 ^ i = 0 → t.bytes_per_row i = some 0) ∧
      (0 < t.height / 2 ^ i → t.rows_per_image i = some (rowsPerImageClaim t i)) ∧
      (t.height / 2 ^ i = 0 → t.rows_per_image i = some 0)) ∧
    (Texture2D.read (u32leBytes 1 ++ u32leBytes 2 ++ u32leBytes 2 ++ u32leBytes 1 ++
        u32leBytes 16 ++ List.replicate 16 7) =
      .ok (⟨.Color, 2, 2, [List.replicate 16 7]⟩, []) ∧
     (Texture2D.mk .Color 2 2 [List.replicate 16 7]).bytes_per_row 0 = some 8 ∧
     (Texture2D.mk .Color 2 2 [List.replicate 16 7]).rows_per_image 0 = some 2 ∧
     [List.replicate 16 7].length = 1 ∧ (List.replicate 16 7).length = 16) := by
  constructor
  · intro t i hi
    have hnot : ¬ 4294967296 ≤ 2 ^ i := Nat.not_le.mpr hi
    refine ⟨?_, ?_, ?_, ?_⟩ <;> intro h <;>
      simp only [Texture2D.bytes_per_row, Texture2D.rows_per_image, bytesPerRowClaim,
        rowsPerImageClaim, if_neg hnot, Option.some.injEq] <;>
      rcases t.format with _ | _ | _ <;>
      simp only [PixelFormat.block_dim, PixelFormat.block_size, divCeilU32] <;>
      split <;> omega
  · refine ⟨by rfl, by rfl, by rfl, by rfl, by simp⟩

/-- Witness for C7's amended theorem at a concrete texture and mip. -/
theorem bytes_per_row_rows_per_image_witness :
    (Texture2D.mk .Bc1 7 5 []).bytes_per_row 0 = some (bytesPerRowClaim ⟨.Bc1, 7, 5, []⟩ 0) ∧
    (Texture2D.mk .Color 1 1 [[], []]).bytes_per_row 1 = some 0 :=
  ⟨((bytes_per_row_rows_per_image.1 ⟨.Bc1, 7, 5, []⟩ 0 (by decide)).1 (by decide)),
   ((bytes_per_row_rows_per_image.1 ⟨.Color, 1, 1, [[], []]⟩ 1 (by decide)).2.1 (by decide))⟩

/-- Vertex element formats (`ElementFormat`), discriminants 0..16. -/
inductive ElementFormat where
  | Single | Vector2 | Vector3 | Vector4 | Color | Byte4 | Short2 | Short4
  | Rgba32 | NormalizedShort2 | NormalizedShort4 | Rgb32 | Rgba64 | UInt40
  | Normalized40 | HalfVector2 | HalfVector4
deriving DecidableEq, Repr

/-- `ElementFormat::from_repr`. -/
def ElementFormat.fromRepr (v : Nat) : Option ElementFormat :=
  if v = 0 then some .Single
  else if v = 1 then some .Vector2
  else if v = 2 then some .Vector3
  else if v = 3 then some .Vector4
  else if v = 4 then some .Color
  else if v = 5 then some .Byte4
  else if v = 6 then some .Short2
  else if v = 7 then some .Short4
  else if v = 8 then some .Rgba32
  else if v = 9 then some .NormalizedShort2
  else if v = 10 then some .NormalizedShort4
  else if v = 11 then some .Rgb32
  else if v = 12 then some .Rgba64
  else if v = 13 then some .UInt40
  else if v = 14 then some .Normalized40
  else if v = 15 then some .HalfVector2
  else if v = 16 then some .HalfVector4
  else none

/-- `ElementFormat::size` in bytes; `none` models the `unimplemented!()` panic
for the formats the source does not size. -/
def ElementFormat.size : ElementFormat → Option Nat
  | .Single => some 4
  | .Vector2 => some 8
  | .Vector3 => some 12
  | .Vector4 => some 16
  | .Byte4 => some 4
  | _ => none

/-- Vertex element interpolation methods (`ElementMethod`). -/
inductive ElementMethod where
  | Default | UV | LookUp | LookUpPresampled
deriving DecidableEq, Repr

/-- `ElementMethod::from_repr`: Default = 0, UV = 4, LookUp = 5,
LookUpPresampled = 6. -/
def ElementMethod.fromRepr (v : Nat) : Option ElementMethod :=
  if v = 0 then some .Default
  else if v = 4 then some .UV
  else if v = 5 then some .LookUp
  else if v = 6 then some .LookUpPresampled
  else none

/-- Vertex element semantic usages (`ElementUsage`). -/
inductive ElementUsage where
  | Position | BlendWeight | BlendIndices | Normal | PointSize
  | TextureCoordinate | Tangent | Binormal | TessellateFactor
  | Color | Fog | Depth | Sample
deriving DecidableEq, Repr

/-- `ElementUsage::from_repr`: 0..8, then Color = 10 .. Sample = 13. -/
def ElementUsage.fromRepr (v : Nat) : Option ElementUsage :=
  if v = 0 then some .Position
  else if v = 1 then some .BlendWeight
  else if v = 2 then some .BlendIndices
  else if v = 3 then some .Normal
  else if v = 4 then some .PointSize
  else if v = 5 then some .TextureCoordinate
  else if v = 6 then some .Tangent
  else if v = 7 then some .Binormal
  else if v = 8 then some .TessellateFactor
  else if v = 10 then some .Color
  else if v = 11 then some .Fog
  else if v = 12 then some .Depth
  else if v = 13 then some .Sample
  else none

/-- One vertex element (`VertexElement`). -/
structure VertexElement where
  stream : Nat
  offset : Nat
  format : ElementFormat
  method : ElementMethod
  usage : ElementUsage
  usage_index : Nat
deriving DecidableEq, Repr

/-- `ElementFormat::read`: one byte, validated against the closed set. -/
def ElementFormat.read (s : ByteStream) : Except DecodeErr (ElementFormat × ByteStream) := do
  let (v, s) ← readU8 s
  match ElementFormat.fromRepr v with
  | some f => .ok (f, s)
  | none => .error (.bail ("unknown element format"))

/-- `ElementMethod::read`. -/
def ElementMethod.read (s : ByteStream) : Except DecodeErr (ElementMethod × ByteStream) := do
  let (v, s) ← readU8 s
  match ElementMethod.fromRepr v with
  | some m => .ok (m, s)
  | none => .error (.bail ("unknown element method"))

/-- `ElementUsage::read`. -/
def ElementUsage.read (s : ByteStream) : Except DecodeErr (ElementUsage × ByteStream) := do
  let (v, s) ← readU8 s
  match ElementUsage.fromRepr v with
  | some u => .ok (u, s)
  | none => .error (.bail ("unknown element usage"))

/-- `VertexElement::read`: stream u16, offset u16, format u8, method u8,
usage u8, usage index u8. -/
def VertexElement.read (s : ByteStream) : Except DecodeErr (VertexElement × ByteStream) := do
  let (stream, s) ← readU16le s
  let (offset, s) ← readU16le s
  let (format, s) ← ElementFormat.read s
  let (method, s) ← ElementMethod.read s
  let (usage, s) ← ElementUsage.read s
  let (usage_index, s) ← readU8 s
  .ok (⟨stream, offset, format, method, usage, usage_index⟩, s)

/-- A data-driven vertex schema (`VertexDeclaration`). -/
structure VertexDeclaration where
  elements : List VertexElement
deriving DecidableEq, Repr

/-- `VertexDeclaration::read`: u32 element count then that many elements. -/
def VertexDeclaration.read (s : ByteStream) :
    Except DecodeErr (VertexDeclaration × ByteStream) := do
  let (num_elements, s) ← readU32le s
  let (elements, s) ← readListM VertexElement.read num_elements s
  .ok (⟨elements⟩, s)

/-- `VertexDeclaration::stride`: `max(offset + format size)` over the elements,
0 for an empty declaration; `none` models the `unimplemented!()` panic when an
element's format has no size. -/
def VertexDeclaration.stride (d : VertexDeclaration) : Option Nat :=
  (d.elements.mapM (fun el : VertexElement =>
    (el.format.size).map (fun sz => el.offset + sz))).map
    (fun sizes => sizes.max?.getD 0)

theorem foldl_max_eq (t : List Nat) : ∀ a : Nat, t.foldl max a = max a (t.foldr max 0) := by
  induction t with
  | nil => intro a; simp
  | cons b t ih =>
    intro a
    simp only [List.foldl_cons, List.foldr_cons, ih (max a b)]
    omega

theorem max?_getD_eq_foldr (l : List Nat) : l.max?.getD 0 = l.foldr max 0 := by
  match l with
  | [] => rfl
  | a :: t =>
    rw [List.max?_cons', Option.getD_some, foldl_max_eq]
    simp only [List.foldr_cons]

theorem le_foldr_max (l : List Nat) (x : Nat) (hx : x ∈ l) : x ≤ l.foldr max 0 := by
  induction l with
  | nil => simp at hx
  | cons a t ih =>
    simp only [List.foldr_cons]
    rcases List.mem_cons.mp hx with h | h
    · omega
    · have := ih h
      omega

theorem foldr_max_mem : ∀ (l : List Nat), l ≠ [] → l.foldr max 0 ∈ l
  | [], h => absurd rfl h
  | [a], _ => by simp
  | a :: b :: t2, _ => by
    have ih := foldr_max_mem (b :: t2) (by simp)
    rw [show (a :: b :: t2).foldr max 0 = max a ((b :: t2).foldr max 0) from rfl]
    rcases max_choice a ((b :: t2).foldr max 0) with hm | hm
    · rw [hm]
      exact List.mem_cons_self a (b :: t2)
    · rw [hm]
      exact List.mem_cons_of_mem a ih

/-- C8: when every element's format has a size, `stride()` is the maximum of
`offset + size` over the elements (an upper bound that is attained when the
declaration is non-empty, 0 when empty); the claim's concrete declaration
{0:Vector3, 12:Vector3, 24:Vector2} has stride 32. -/
theorem stride_is_max_offset_plus_size :
    (∀ (d : VertexDeclaration) (sizes : List Nat),
      d.elements.mapM (fun el : VertexElement =>
        (el.format.size).map (fun sz => el.offset + sz)) = some sizes →
      d.stride = some (sizes.max?.getD 0) ∧
      (∀ x ∈ sizes, x ≤ sizes.max?.getD 0) ∧
      (sizes ≠ [] → sizes.max?.getD 0 ∈ sizes)) ∧
    VertexDeclaration.stride ⟨[⟨0, 0, .Vector3, .Default, .Position, 0⟩,
      ⟨0, 12, .Vector3, .Default, .Normal, 0⟩,
      ⟨0, 24, .Vector2, .Default, .TextureCoordinate, 0⟩]⟩ = some 32 := by
  constructor
  · intro d sizes hm
    refine ⟨?_, ?_, ?_⟩
    · simp only [VertexDeclaration.stride]
      rw [hm]
      rfl
    · intro x hx
      rw [max?_getD_eq_foldr]
      exact le_foldr_max sizes x hx
    · intro hne
      rw [max?_getD_eq_foldr]
      exact foldr_max_mem sizes hne
  · rfl

/-- Witness for C8: the general part applied to the claim's declaration. -/
theorem stride_is_max_offset_plus_size_witness :
    VertexDeclaration.stride ⟨[⟨0, 0, .Vector3, .Default, .Position, 0⟩,
      ⟨0, 12, .Vector3, .Default, .Normal, 0⟩,
      ⟨0, 24, .Vector2, .Default, .TextureCoordinate, 0⟩]⟩ =
      some ([12, 24, 32].max?.getD 0) ∧ (32 : Nat) ∈ [12, 24, 32] :=
  ⟨(stride_is_max_offset_plus_size.1 ⟨[⟨0, 0, .Vector3, .Default, .Position, 0⟩,
      ⟨0, 12, .Vector3, .Default, .Normal, 0⟩,
      ⟨0, 24, .Vector2, .Default, .TextureCoordinate, 0⟩]⟩ [12, 24, 32] (by rfl)).1,
   (stride_is_max_offset_plus_size.1 ⟨[⟨0, 0, .Vector3, .Default, .Position, 0⟩,
      ⟨0, 12, .Vector3, .Default, .Normal, 0⟩,
      ⟨0, 24, .Vector2, .Default, .TextureCoordinate, 0⟩]⟩ [12, 24, 32] (by rfl)).2.2
      (by simp)⟩

/-- One type-reader manifest entry (`TypeReader`). -/
structure TypeReader where
  name : String
  version : Int

/-- `STRING_READER_NAME`. -/
def STRING_READER_NAME : String := "Microsoft.Xna.Framework.Content.StringReader"

/-- `LIST_READER_NAME` (declared in the source, not dispatched on). -/
def LIST_READER_NAME : String := "Microsoft.Xna.Framework.Content.ListReader"

/-- `TEXTURE_2D_READER_NAME`. -/
def TEXTURE_2D_READER_NAME : String := "Microsoft.Xna.Framework.Content.Texture2DReader"

/-- `TEXTURE_3D_READER_NAME`. -/
def TEXTURE_3D_READER_NAME : String := "Microsoft.Xna.Framework.Content.Texture3DReader"

/-- `MODEL_READER_NAME`. -/
def MODEL_READER_NAME : String := "Microsoft.Xna.Framework.Content.ModelReader"

/-- `VERTEX_DECL_READER_NAME`. -/
def VERTEX_DECL_READER_NAME : String := "Microsoft.Xna.Framework.Content.VertexDeclarationReader"

/-- `VERTEX_BUFFER_READER_NAME`. -/
def VERTEX_BUFFER_READER_NAME : String := "Microsoft.Xna.Framework.Content.VertexBufferReader"

/-- `INDEX_BUFFER_READER_NAME`. -/
def INDEX_BUFFER_READER_NAME : String := "Microsoft.Xna.Framework.Content.IndexBufferReader"

/-- `BI_TREE_MODEL_READER_NAME`. -/
def BI_TREE_MODEL_READER_NAME : String := "PolygonHead.Pipeline.BiTreeModelReader"

/-- `ADDITIVE_EFFECT_READER_NAME`. -/
def ADDITIVE_EFFECT_READER_NAME : String := "PolygonHead.Pipeline.AdditiveEffectReader"

/-- `RENDER_DEFERRED_EFFECT_READER_NAME`. -/
def RENDER_DEFERRED_EFFECT_READER_NAME : String :=
  "PolygonHead.Pipeline.RenderDeferredEffectReader"

/-- `RENDER_DEFERRED_LIQUID_EFFECT_READER_NAME`. -/
def RENDER_DEFERRED_LIQUID_EFFECT_READER_NAME : String :=
  "PolygonHead.Pipeline.RenderDeferredLiquidEffectReader"

/-- `LEVEL_MODEL_READER_NAME`. -/
def LEVEL_MODEL_READER_NAME : String := "Magicka.ContentReaders.LevelModelReader"

/-- `type_reader.name.split(',').next().unwrap()`: the manifest name truncated
at the first comma. -/
def truncateAtComma (s : String) : String :=
  String.mk (s.data.takeWhile (fun c => c ≠ ','))

/-- The fixed set of decoder names `XnbAsset::read` dispatches on. -/
def knownReaderNames : List String :=
  [STRING_READER_NAME, TEXTURE_2D_READER_NAME, TEXTURE_3D_READER_NAME,
   MODEL_READER_NAME, VERTEX_DECL_READER_NAME, VERTEX_BUFFER_READER_NAME,
   INDEX_BUFFER_READER_NAME, BI_TREE_MODEL_READER_NAME, ADDITIVE_EFFECT_READER_NAME,
   RENDER_DEFERRED_EFFECT_READER_NAME, RENDER_DEFERRED_LIQUID_EFFECT_READER_NAME,
   LEVEL_MODEL_READER_NAME]

/-- A raw vertex buffer (`VertexBuffer`). -/
structure VertexBuffer where
  data : List Nat
deriving DecidableEq, Repr

/-- `VertexBuffer::read`: u32 size then that many raw bytes. -/
def VertexBuffer.read (s : ByteStream) : Except DecodeErr (VertexBuffer × ByteStream) := do
  let (size, s) ← readU32le s
  let (data, s) ← readExact size s
  .ok (⟨data⟩, s)

/-- A raw index buffer (`IndexBuffer`): 16-vs-32-bit flag plus raw bytes. -/
structure IndexBuffer where
  is_16_bit : Bool
  data : List Nat
deriving DecidableEq, Repr

/-- `IndexBuffer::read`: bool width flag, u32 size, raw bytes. -/
def IndexBuffer.read (s : ByteStream) : Except DecodeErr (IndexBuffer × ByteStream) := do
  let (flag16, s) ← readBool s
  let (size, s) ← readU32le s
  let (data, s) ← readExact size s
  .ok (⟨flag16, data⟩, s)

/-- `read_bone_ref`: 1 byte when the passed bone count is at most 255, else a
little-endian u32. -/
def readBoneRef (num_bones : Nat) (s : ByteStream) : ReadM Nat :=
  if num_bones ≤ 255 then readU8 s else readU32le s

/-- A bounding sphere (`BoundingSphere`), kept as raw f32 bit patterns. -/
structure BoundingSphere where
  center : List Nat
  radius : Nat
deriving DecidableEq, Repr

/-- `BoundingSphere::read`: Vec3 center then f32 radius. -/
def BoundingSphere.read (s : ByteStream) :
    Except DecodeErr (BoundingSphere × ByteStream) := do
  let (center, s) ← readVec3 s
  let (radius, s) ← readF32le s
  .ok (⟨center, radius⟩, s)

/-- One bone (`Bone`): the name string's raw bytes plus a 4x4 transform kept
as 16 f32 bit patterns. -/
structure Bone where
  name : List Nat
  transform : List Nat
deriving DecidableEq, Repr

/-- One bone-hierarchy record (`BoneHierarchy`). -/
structure BoneHierarchy where
  parent_ref : Nat
  children_refs : List Nat
deriving DecidableEq, Repr

/-- `BoneHierarchy::read`: parent bone-ref, u32 child count, child bone-refs,
all bone-refs sized by the model's bone count. -/
def BoneHierarchy.read (num_bones : Nat) (s : ByteStream) :
    Except DecodeErr (BoneHierarchy × ByteStream) := do
  let (parent_ref, s) ← readBoneRef num_bones s
  let (num_children, s) ← readU32le s
  let (children_refs, s) ← readListM (readBoneRef num_bones) num_children s
  .ok (⟨parent_ref, children_refs⟩, s)

/-- One mesh part (`MeshPart`). -/
structure MeshPart where
  stream_offset : Nat
  base_vertex : Nat
  vertex_count : Nat
  start_index : Nat
  primitive_count : Nat
  vertex_decl_index : Nat
  tag : Nat
  shared_content_material_index : Int
deriving DecidableEq, Repr

/-- `MeshPart::read`: six u32 fields, a tag byte, and a 7-bit-encoded i32
shared-material index. -/
def MeshPart.read (s : ByteStream) : Except DecodeErr (MeshPart × ByteStream) := do
  let (stream_offset, s) ← readU32le s
  let (base_vertex, s) ← readU32le s
  let (vertex_count, s) ← readU32le s
  let (start_index, s) ← readU32le s
  let (primitive_count, s) ← readU32le s
  let (vertex_decl_index, s) ← readU32le s
  let (tag, s) ← readU8 s
  let (shared_content_material_index, s) ← read7BitEncodedI32 s
  .ok (⟨stream_offset, base_vertex, vertex_count, start_index, primitive_count,
    vertex_decl_index, tag, shared_content_material_index⟩, s)

/-- One mesh (`Mesh`). -/
structure Mesh where
  name : List Nat
  parent_bone_ref : Nat
  bounds : BoundingSphere
  vertex_buffer : VertexBuffer
  index_buffer : IndexBuffer
  parts : List MeshPart
  tag : Nat
deriving DecidableEq, Repr

/-- A skinned model (`Model`). -/
structure Model where
  bones : List Bone
  bones_hierarchy : List BoneHierarchy
  vertex_decls : List VertexDeclaration
  meshes : List Mesh
  root_bone_ref : Nat
  tag : Nat
deriving DecidableEq, Repr

/-- The polymorphic asset value (`XnbAsset`).  The kinds whose decoders the
verified claims never inspect (`Texture3D`, `BiTreeModel`, the three effects,
`LevelModel`) carry no payload here; their byte-level readers are opaque
parameters of the dispatcher. -/
inductive XnbAsset where
  | Null : XnbAsset
  | String (bytes : List Nat) : XnbAsset
  | Texture2D (t : Texture2D) : XnbAsset
  | Texture3D : XnbAsset
  | Model (m : Model) : XnbAsset
  | VertexDeclaration (d : VertexDeclaration) : XnbAsset
  | VertexBuffer (b : VertexBuffer) : XnbAsset
  | IndexBuffer (b : IndexBuffer) : XnbAsset
  | BiTreeModel : XnbAsset
  | AdditiveEffect : XnbAsset
  | RenderDeferredEffect : XnbAsset
  | RenderDeferredLiquidEffect : XnbAsset
  | LevelModel : XnbAsset
deriving DecidableEq, Repr

/-- The shape of the recursive asset reader. -/
abbrev AssetReader :=
  List TypeReader → ByteStream → Except DecodeErr (XnbAsset × ByteStream)

/-- `Bone::read`: a nested String asset (the name) then a 4x4 transform. -/
def Bone.read (recur : AssetReader) (type_readers : List TypeReader)
    (s : ByteStream) : Except DecodeErr (Bone × ByteStream) := do
  let (nameAsset, s) ← recur type_readers s
  match nameAsset with
  | .String name => do
    let (transform, s) ← readMat4 s
    .ok (⟨name, transform⟩, s)
  | _ => .error (.bail ("expected bone name to be a string"))

/-- The nested VertexDeclaration-asset read of `Model::read`. -/
def readVertexDeclAsset (recur : AssetReader) (type_readers : List TypeReader)
    (s : ByteStream) : Except DecodeErr (VertexDeclaration × ByteStream) := do
  let (a, s) ← recur type_readers s
  match a with
  | .VertexDeclaration d => .ok (d, s)
  | _ => .error (.bail ("expected vertex declaration"))

/-- `Mesh::read`: name String asset, parent bone-ref read with a bone count of
0 (so always one byte), bounding sphere, nested VertexBuffer and IndexBuffer
assets, a tag byte, then the part list. -/
def Mesh.read (recur : AssetReader) (type_readers : List TypeReader)
    (s : ByteStream) : Except DecodeErr (Mesh × ByteStream) := do
  let (nameAsset, s) ← recur type_readers s
  match nameAsset with
  | .String name => do
    let (parent_bone_ref, s) ← readBoneRef 0 s
    let (bounds, s) ← BoundingSphere.read s
    let (vbA, s) ← recur type_readers s
    match vbA with
    | .VertexBuffer vertex_buffer => do
      let (ibA, s) ← recur type_readers s
      match ibA with
      | .IndexBuffer index_buffer => do
        let (tag, s) ← readU8 s
        let (num_parts, s) ← readU32le s
        let (parts, s) ← readListM MeshPart.read num_parts s
        .ok (⟨name, parent_bone_ref, bounds, vertex_buffer, index_buffer, parts, tag⟩, s)
      | _ => .error (.bail ("expected index buffer"))
    | _ => .error (.bail ("expected vertex buffer"))
  | _ => .error (.bail ("expected bone name to be a string"))

/-- `Model::read`: bone count, bones, hierarchy records, vertex-declaration
assets, meshes, root bone-ref (sized by the bone count), one tag byte. -/
def Model.read (recur : AssetReader) (type_readers : List TypeReader)
    (s : ByteStream) : Except DecodeErr (Model × ByteStream) := do
  let (num_bones, s) ← readU32le s
  let (bones, s) ← readListM (Bone.read recur type_readers) num_bones s
  let (bones_hierarchy, s) ← readListM (BoneHierarchy.read num_bones) num_bones s
  let (num_vertex_decls, s) ← readU32le s
  let (vertex_decls, s) ← readListM (readVertexDeclAsset recur type_readers)
    num_vertex_decls s
  let (num_meshes, s) ← readU32le s
  let (meshes, s) ← readListM (Mesh.read recur type_readers) num_meshes s
  let (root_bone_ref, s) ← readBoneRef num_bones s
  let (tag, s) ← readU8 s
  .ok (⟨bones, bones_hierarchy, vertex_decls, meshes, root_bone_ref, tag⟩, s)

/-- The per-kind decoders the verified claims never inspect, kept opaque:
`Texture3D::read`, `BiTreeModel::read`, `AdditiveEffect::read`,
`RenderDeferredEffect::read`, `RenderDeferredLiquidEffect::read`,
`LevelModel::read`. -/
structure ExtReaders where
  texture3d : ByteStream → Except DecodeErr (Unit × ByteStream)
  bi_tree_model : List TypeReader → ByteStream → Except DecodeErr (Unit × ByteStream)
  additive_effect : ByteStream → Except DecodeErr (Unit × ByteStream)
  render_deferred_effect : ByteStream → Except DecodeErr (Unit × ByteStream)
  render_deferred_liquid_effect : ByteStream → Except DecodeErr (Unit × ByteStream)
  level_model : List TypeReader → ByteStream → Except DecodeErr (Unit × ByteStream)

/-- One step of `XnbAsset::read`, with the recursive occurrence abstracted as
`recur`: read the 7-bit-encoded type index; zero is `Null` (no further bytes);
otherwise index the manifest at `type_id - 1` (an out-of-range index is the
Rust slice-indexing panic), truncate the entry's name at the first comma, and
dispatch on the truncated name; an unmatched name is a hard error. -/
def XnbAsset.readStep (ext : ExtReaders) (recur : AssetReader)
    (type_readers : List TypeReader) (s : ByteStream) :
    Except DecodeErr (XnbAsset × ByteStream) := do
  let (ty, s) ← read7BitEncodedI32 s
  let type_id := i32AsUsize ty
  if type_id = 0 then .ok (.Null, s)
  else
    match type_readers[type_id - 1]? with
    | none => .error (.crash ("index out of bounds"))
    | some type_reader =>
      let name := truncateAtComma type_reader.name
      if name = STRING_READER_NAME then do
        let (str, s) ← read7BitLengthString s
        .ok (.String str, s)
      else if name = TEXTURE_2D_READER_NAME then do
        let (texture, s) ← Texture2D.read s
        .ok (.Texture2D texture, s)
      else if name = TEXTURE_3D_READER_NAME then do
        let (_, s) ← ext.texture3d s
        .ok (.Texture3D, s)
      else if name = MODEL_READER_NAME then do
        let (model, s) ← Model.read recur type_readers s
        .ok (.Model model, s)
      else if name = VERTEX_DECL_READER_NAME then do
        let (decl, s) ← VertexDeclaration.read s
        .ok (.VertexDeclaration decl, s)
      else if name = VERTEX_BUFFER_READER_NAME then do
        let (buffer, s) ← VertexBuffer.read s
        .ok (.VertexBuffer buffer, s)
      else if name = INDEX_BUFFER_READER_NAME then do
        let (buffer, s) ← IndexBuffer.read s
        .ok (.IndexBuffer buffer, s)
      else if name = BI_TREE_MODEL_READER_NAME then do
        let (_, s) ← ext.bi_tree_model type_readers s
        .ok (.BiTreeModel, s)
      else if name = ADDITIVE_EFFECT_READER_NAME then do
        let (_, s) ← ext.additive_effect s
        .ok (.AdditiveEffect, s)
      else if name = RENDER_DEFERRED_EFFECT_READER_NAME then do
        let (_, s) ← ext.render_deferred_effect s
        .ok (.RenderDeferredEffect, s)
      else if name = RENDER_DEFERRED_LIQUID_EFFECT_READER_NAME then do
        let (_, s) ← ext.render_deferred_liquid_effect s
        .ok (.RenderDeferredLiquidEffect, s)
      else if name = LEVEL_MODEL_READER_NAME then do
        let (_, s) ← ext.level_model type_readers s
        .ok (.LevelModel, s)
      else
        .error (.bail (("unknown type reader: ") ++ type_reader.name))

/-- `XnbAsset::read`, with recursion made explicit through fuel (the Rust
recursion is bounded by stream consumption). -/
def XnbAsset.read (ext : ExtReaders) : Nat → AssetReader
  | 0 => fun _ _ => .error (.crash ("recursion fuel exhausted"))
  | fuel + 1 => XnbAsset.readStep ext (XnbAsset.read ext fuel)

theorem except_bind_ok_inv {ε α β : Type} {f : Except ε α} {g : α → Except ε β} {r : β}
    (h : (f >>= g) = .ok r) : ∃ a, f = .ok a ∧ g a = .ok r := by
  cases f with
  | ok a => exact ⟨a, rfl, h⟩
  | error e => exact absurd h (by simp [except_bind_error])

/-- The asset kind each known decoder name must produce (the claim's
dispatch table); unknown names admit no asset at all. -/
def readerKindMatches (name : String) (a : XnbAsset) : Prop :=
  if name = STRING_READER_NAME then ∃ bytes, a = .String bytes
  else if name = TEXTURE_2D_READER_NAME then ∃ t, a = .Texture2D t
  else if name = TEXTURE_3D_READER_NAME then a = .Texture3D
  else if name = MODEL_READER_NAME then ∃ m, a = .Model m
  else if name = VERTEX_DECL_READER_NAME then ∃ d, a = .VertexDeclaration d
  else if name = VERTEX_BUFFER_READER_NAME then ∃ b, a = .VertexBuffer b
  else if name = INDEX_BUFFER_READER_NAME then ∃ b, a = .IndexBuffer b
  else if name = BI_TREE_MODEL_READER_NAME then a = .BiTreeModel
  else if name = ADDITIVE_EFFECT_READER_NAME then a = .AdditiveEffect
  else if name = RENDER_DEFERRED_EFFECT_READER_NAME then a = .RenderDeferredEffect
  else if name = RENDER_DEFERRED_LIQUID_EFFECT_READER_NAME then
    a = .RenderDeferredLiquidEffect
  else if name = LEVEL_MODEL_READER_NAME then a = .LevelModel
  else False

set_option maxHeartbeats 2000000 in
/-- C1: decoding an asset first reads the 7-bit-encoded type index; index zero
returns `Null` consuming no further bytes; a nonzero in-range index whose
manifest entry, truncated at the first comma, matches none of the fixed
decoder names fails with the descriptive hard error; and every successful
nonzero decode produces exactly the asset kind the truncated name selects
(in particular never `Null` and never a different kind). -/
theorem asset_dispatch_zero_null_unknown_error :
    (∀ (ext : ExtReaders) (fuel : Nat) (type_readers : List TypeReader)
      (s rest : ByteStream) (v : Int),
      read7BitEncodedI32 s = .ok (v, rest) → i32AsUsize v = 0 →
      XnbAsset.read ext (fuel + 1) type_readers s = .ok (.Null, rest)) ∧
    (∀ (ext : ExtReaders) (fuel : Nat) (type_readers : List TypeReader)
      (s rest : ByteStream) (v : Int) (entry : TypeReader),
      read7BitEncodedI32 s = .ok (v, rest) → 0 < i32AsUsize v →
      type_readers[i32AsUsize v - 1]? = some entry →
      truncateAtComma entry.name ∉ knownReaderNames →
      XnbAsset.read ext (fuel + 1) type_readers s =
        .error (.bail (("unknown type reader: ") ++ entry.name))) ∧
    (∀ (ext : ExtReaders) (fuel : Nat) (type_readers : List TypeReader)
      (s rest : ByteStream) (v : Int) (entry : TypeReader) (a : XnbAsset)
      (s2 : ByteStream),
      read7BitEncodedI32 s = .ok (v, rest) → 0 < i32AsUsize v →
      type_readers[i32AsUsize v - 1]? = some entry →
      XnbAsset.read ext (fuel + 1) type_readers s = .ok (a, s2) →
      readerKindMatches (truncateAtComma entry.name) a) := by
  have hstep : ∀ ext fuel, XnbAsset.read ext (fuel + 1) =
      XnbAsset.readStep ext (XnbAsset.read ext fuel) := fun _ _ => rfl
  refine ⟨?_, ?_, ?_⟩
  · intro ext fuel type_readers s rest v hv h0
    rw [hstep]
    simp only [XnbAsset.readStep, hv, except_bind_ok, h0]
    rfl
  · intro ext fuel type_readers s rest v entry hv hpos hentry hnot
    have hne : i32AsUsize v ≠ 0 := Nat.pos_iff_ne_zero.mp hpos
    simp only [knownReaderNames, List.mem_cons, List.not_mem_nil, or_false,
      not_or] at hnot
    obtain ⟨n1, n2, n3, n4, n5, n6, n7, n8, n9, n10, n11, n12⟩ := hnot
    rw [hstep]
    simp only [XnbAsset.readStep, hv, except_bind_ok, hentry, if_neg hne]
    rw [if_neg n1, if_neg n2, if_neg n3, if_neg n4, if_neg n5, if_neg n6, if_neg n7,
      if_neg n8, if_neg n9, if_neg n10, if_neg n11, if_neg n12]
  · intro ext fuel type_readers s rest v entry a s2 hv hpos hentry hok
    have hne : i32AsUsize v ≠ 0 := Nat.pos_iff_ne_zero.mp hpos
    rw [hstep] at hok
    simp only [XnbAsset.readStep, hv, except_bind_ok, hentry, if_neg hne] at hok
    simp only [readerKindMatches]
    by_cases c1 : truncateAtComma entry.name = STRING_READER_NAME
    · rw [if_pos c1] at hok
      rw [if_pos c1]
      obtain ⟨⟨x, s3⟩, hf, hg⟩ := except_bind_ok_inv hok
      simp only [Except.ok.injEq, Prod.mk.injEq] at hg
      exact ⟨x, hg.1.symm⟩
    rw [if_neg c1] at hok
    rw [if_neg c1]
    by_cases c2 : truncateAtComma entry.name = TEXTURE_2D_READER_NAME
    · rw [if_pos c2] at hok
      rw [if_pos c2]
      obtain ⟨⟨x, s3⟩, hf, hg⟩ := except_bind_ok_inv hok
      simp only [Except.ok.injEq, Prod.mk.injEq] at hg
      exact ⟨x, hg.1.symm⟩
    rw [if_neg c2] at hok
    rw [if_neg c2]
    by_cases c3 : truncateAtComma entry.name = TEXTURE_3D_READER_NAME
    · rw [if_pos c3] at hok
      rw [if_pos c3]
      obtain ⟨⟨x, s3⟩, hf, hg⟩ := except_bind_ok_inv hok
      simp only [Except.ok.injEq, Prod.mk.injEq] at hg
      exact hg.1.symm
    rw [if_neg c3] at hok
    rw [if_neg c3]
    by_cases c4 : truncateAtComma entry.name = MODEL_READER_NAME
    · rw [if_pos c4] at hok
      rw [if_pos c4]
      obtain ⟨⟨x, s3⟩, hf, hg⟩ := except_bind_ok_inv hok
      simp only [Except.ok.injEq, Prod.mk.injEq] at hg
      exact ⟨x, hg.1.symm⟩
    rw [if_neg c4] at hok
    rw [if_neg c4]
    by_cases c5 : truncateAtComma entry.name = VERTEX_DECL_READER_NAME
    · rw [if_pos c5] at hok
      rw [if_pos c5]
      obtain ⟨⟨x, s3⟩, hf, hg⟩ := except_bind_ok_inv hok
      simp only [Except.ok.injEq, Prod.mk.injEq] at hg
      exact ⟨x, hg.1.symm⟩
    rw [if_neg c5] at hok
    rw [if_neg c5]
    by_cases c6 : truncateAtComma entry.name = VERTEX_BUFFER_READER_NAME
    · rw [if_pos c6] at hok
      rw [if_pos c6]
      obtain ⟨⟨x, s3⟩, hf, hg⟩ := except_bind_ok_inv hok
      simp only [Except.ok.injEq, Prod.mk.injEq] at hg
      exact ⟨x, hg.1.symm⟩
    rw [if_neg c6] at hok
    rw [if_neg c6]
    by_cases c7 : truncateAtComma entry.name = INDEX_BUFFER_READER_NAME
    · rw [if_pos c7] at hok
      rw [if_pos c7]
      obtain ⟨⟨x, s3⟩, hf, hg⟩ := except_bind_ok_inv hok
      simp only [Except.ok.injEq, Prod.mk.injEq] at hg
      exact ⟨x, hg.1.symm⟩
    rw [if_neg c7] at hok
    rw [if_neg c7]
    by_cases c8 : truncateAtComma entry.name = BI_TREE_MODEL_READER_NAME
    · rw [if_pos c8] at hok
      rw [if_pos c8]
      obtain ⟨⟨x, s3⟩, hf, hg⟩ := except_bind_ok_inv hok
      simp only [Except.ok.injEq, Prod.mk.injEq] at hg
      exact hg.1.symm
    rw [if_neg c8] at hok
    rw [if_neg c8]
    by_cases c9 : truncateAtComma entry.name = ADDITIVE_EFFECT_READER_NAME
    · rw [if_pos c9] at hok
      rw [if_pos c9]
      obtain ⟨⟨x, s3⟩, hf, hg⟩ := except_bind_ok_inv hok
      simp only [Except.ok.injEq, Prod.mk.injEq] at hg
      exact hg.1.symm
    rw [if_neg c9] at hok
    rw [if_neg c9]
    by_cases c10 : truncateAtComma entry.name = RENDER_DEFERRED_EFFECT_READER_NAME
    · rw [if_pos c10] at hok
      rw [if_pos c10]
      obtain ⟨⟨x, s3⟩, hf, hg⟩ := except_bind_ok_inv hok
      simp only [Except.ok.injEq, Prod.mk.injEq] at hg
      exact hg.1.symm
    rw [if_neg c10] at hok
    rw [if_neg c10]
    by_cases c11 : truncateAtComma entry.name = RENDER_DEFERRED_LIQUID_EFFECT_READER_NAME
    · rw [if_pos c11] at hok
      rw [if_pos c11]
      obtain ⟨⟨x, s3⟩, hf, hg⟩ := except_bind_ok_inv hok
      simp only [Except.ok.injEq, Prod.mk.injEq] at hg
      exact hg.1.symm
    rw [if_neg c11] at hok
    rw [if_neg c11]
    by_cases c12 : truncateAtComma entry.name = LEVEL_MODEL_READER_NAME
    · rw [if_pos c12] at hok
      rw [if_pos c12]
      obtain ⟨⟨x, s3⟩, hf, hg⟩ := except_bind_ok_inv hok
      simp only [Except.ok.injEq, Prod.mk.injEq] at hg
      exact hg.1.symm
    rw [if_neg c12] at hok
    rw [if_neg c12]
    simp at hok

/-- A trivial instantiation of the opaque per-kind decoders, for witnesses. -/
def trivialExtReaders : ExtReaders where
  texture3d := fun s => .ok ((), s)
  bi_tree_model := fun _ s => .ok ((), s)
  additive_effect := fun s => .ok ((), s)
  render_deferred_effect := fun s => .ok ((), s)
  render_deferred_liquid_effect := fun s => .ok ((), s)
  level_model := fun _ s => .ok ((), s)

/-- Witness for C1: index 0 yields `Null` with no bytes consumed; index 1 into
a manifest whose entry is not a known decoder name yields the descriptive
error. -/
theorem asset_dispatch_zero_null_unknown_error_witness :
    XnbAsset.read trivialExtReaders 1 [] [0] = .ok (.Null, []) ∧
    XnbAsset.read trivialExtReaders 1 [⟨("Foo.Bar"), 0⟩] [1] =
      .error (.bail (("unknown type reader: ") ++ ("Foo.Bar"))) := by
  constructor
  · exact asset_dispatch_zero_null_unknown_error.1 trivialExtReaders 0 [] [0] [] 0
      (by rfl) (by rfl)
  · exact asset_dispatch_zero_null_unknown_error.2.1 trivialExtReaders 0
      [⟨("Foo.Bar"), 0⟩] [1] [] 1 ⟨("Foo.Bar"), 0⟩ (by rfl) (by decide) (by rfl)
      (by decide)

/-- C10: a nonzero 7-bit-encoded type index greater than the manifest length
makes `XnbAsset::read` panic on the out-of-bounds slice index rather than
return a decode error. -/
theorem asset_read_panics_on_oob
    (ext : ExtReaders) (fuel : Nat) (type_readers : List TypeReader)
    (s rest : ByteStream) (v : Int)
    (hv : read7BitEncodedI32 s = .ok (v, rest))
    (hpos : 0 < i32AsUsize v)
    (hoob : type_readers.length < i32AsUsize v) :
    XnbAsset.read ext (fuel + 1) type_readers s =
      .error (.crash ("index out of bounds")) ∧
    ∀ msg, XnbAsset.read ext (fuel + 1) type_readers s ≠ .error (.bail msg) := by
  have hne : i32AsUsize v ≠ 0 := Nat.pos_iff_ne_zero.mp hpos
  have hentry : type_readers[i32AsUsize v - 1]? = none := by
    rw [List.getElem?_eq_none]
    omega
  have hres : XnbAsset.read ext (fuel + 1) type_readers s =
      .error (.crash ("index out of bounds")) := by
    show XnbAsset.readStep ext (XnbAsset.read ext fuel) type_readers s = _
    simp only [XnbAsset.readStep, hv, except_bind_ok, hentry, if_neg hne]
  refine ⟨hres, ?_⟩
  intro msg
  rw [hres]
  simp

/-- Witness for C10: index 5 into an empty manifest panics. -/
theorem asset_read_panics_on_oob_witness :
    XnbAsset.read trivialExtReaders 1 [] [5] = .error (.crash ("index out of bounds")) ∧
    ∀ msg, XnbAsset.read trivialExtReaders 1 [] [5] ≠ .error (.bail msg) :=
  asset_read_panics_on_oob trivialExtReaders 0 [] [5] [] 5 (by rfl) (by decide) (by decide)

/-- The claim's reading of `Mesh::read` for C5 (refinement comparison, follows
the spec's words): identical to `Mesh.read` except the parent bone-ref is
sized by the model's total bone count. -/
def Mesh.readSpecWidth (num_bones : Nat) (recur : AssetReader)
    (type_readers : List TypeReader) (s : ByteStream) :
    Except DecodeErr (Mesh × ByteStream) := do
  let (nameAsset, s) ← recur type_readers s
  match nameAsset with
  | .String name => do
    let (parent_bone_ref, s) ← readBoneRef num_bones s
    let (bounds, s) ← BoundingSphere.read s
    let (vbA, s) ← recur type_readers s
    match vbA with
    | .VertexBuffer vertex_buffer => do
      let (ibA, s) ← recur type_readers s
      match ibA with
      | .IndexBuffer index_buffer => do
        let (tag, s) ← readU8 s
        let (num_parts, s) ← readU32le s
        let (parts, s) ← readListM MeshPart.read num_parts s
        .ok (⟨name, parent_bone_ref, bounds, vertex_buffer, index_buffer, parts, tag⟩, s)
      | _ => .error (.bail ("expected index buffer"))
    | _ => .error (.bail ("expected vertex buffer"))
  | _ => .error (.bail ("expected bone name to be a string"))

/-- The claim's reading of `Model::read` for C5 (refinement comparison): every
bone-ref, including each mesh's parent-bone index, is sized by the bone count. -/
def Model.readSpecWidth (recur : AssetReader) (type_readers : List TypeReader)
    (s : ByteStream) : Except DecodeErr (Model × ByteStream) := do
  let (num_bones, s) ← readU32le s
  let (bones, s) ← readListM (Bone.read recur type_readers) num_bones s
  let (bones_hierarchy, s) ← readListM (BoneHierarchy.read num_bones) num_bones s
  let (num_vertex_decls, s) ← readU32le s
  let (vertex_decls, s) ← readListM (readVertexDeclAsset recur type_readers)
    num_vertex_decls s
  let (num_meshes, s) ← readU32le s
  let (meshes, s) ← readListM (Mesh.readSpecWidth num_bones recur type_readers)
    num_meshes s
  let (root_bone_ref, s) ← readBoneRef num_bones s
  let (tag, s) ← readU8 s
  .ok (⟨bones, bones_hierarchy, vertex_decls, meshes, root_bone_ref, tag⟩, s)

/-- The manifest for the C5 streams: String, VertexBuffer, IndexBuffer readers. -/
def c5Manifest : List TypeReader :=
  [⟨STRING_READER_NAME, 0⟩, ⟨VERTEX_BUFFER_READER_NAME, 0⟩,
   ⟨INDEX_BUFFER_READER_NAME, 0⟩]

/-- One serialized bone: a String asset (index 1, empty name) and 64 matrix
bytes. -/
def c5BoneBytes : ByteStream := 1 :: 0 :: List.replicate 64 0

/-- One serialized hierarchy record for a 256-bone model: 4-byte parent ref 5,
zero children. -/
def c5HierBytes : ByteStream := [5, 0, 0, 0, 0, 0, 0, 0]

/-- One serialized mesh whose parent-bone byte is `b`: empty name, parent byte,
16 bounding-sphere bytes (first one 9), empty vertex and index buffer assets,
tag 0, zero parts. -/
def c5MeshBytes (b : Nat) : ByteStream :=
  [1, 0] ++ (b :: 9 :: List.replicate 15 0) ++ ([2, 0, 0, 0, 0] ++
    ([3, 1, 0, 0, 0, 0] ++ ([0] ++ [0, 0, 0, 0])))

/-- A serialized 256-bone model with one mesh (parent-bone byte `b`) and
4-byte root ref 11. -/
def c5Stream (b : Nat) : ByteStream :=
  [0, 1, 0, 0] ++ ((List.replicate 256 c5BoneBytes).flatten ++
    ((List.replicate 256 c5HierBytes).flatten ++ ([0, 0, 0, 0] ++
      ([1, 0, 0, 0] ++ (c5MeshBytes b ++ ([11, 0, 0, 0] ++ [3]))))))

/-- The mesh value `Mesh::read` produces from `c5MeshBytes b`. -/
def c5MeshVal (b : Nat) : Mesh :=
  ⟨[], b, ⟨[9, 0, 0], 0⟩, ⟨[]⟩, ⟨true, []⟩, [], 0⟩

/-- The model value `Model::read` produces from `c5Stream b`. -/
def c5ModelVal (b : Nat) : Model :=
  ⟨List.replicate 256 ⟨[], List.replicate 16 0⟩, List.replicate 256 ⟨5, []⟩,
   [], [c5MeshVal b], 11, 3⟩

theorem c5_bone_step (rest : ByteStream) :
    Bone.read (XnbAsset.read trivialExtReaders 1) c5Manifest (c5BoneBytes ++ rest) =
      .ok (⟨[], List.replicate 16 0⟩, rest) := by
  rfl

theorem c5_hier_step (rest : ByteStream) :
    BoneHierarchy.read 256 (c5HierBytes ++ rest) = .ok (⟨5, []⟩, rest) := by
  rfl

theorem c5_mesh_step (b : Nat) (rest : ByteStream) :
    Mesh.read (XnbAsset.read trivialExtReaders 1) c5Manifest (c5MeshBytes b ++ rest) =
      .ok (c5MeshVal b, rest) := by
  rfl

theorem c5_mesh_spec_step (b : Nat) (rest : ByteStream) :
    Mesh.readSpecWidth 256 (XnbAsset.read trivialExtReaders 1) c5Manifest
      (c5MeshBytes b ++ rest) = .error (.bail ("expected vertex buffer")) := by
  rfl

theorem readListM_replicate {α : Type} (act : ByteStream → ReadM α)
    (blk : ByteStream) (v : α)
    (hstep : ∀ rest, act (blk ++ rest) = .ok (v, rest)) :
    ∀ (n : Nat) (rest : ByteStream),
      readListM act n ((List.replicate n blk).flatten ++ rest) =
        .ok (List.replicate n v, rest) := by
  intro n
  induction n with
  | zero => intro rest; simp [readListM, List.replicate]
  | succ n ih =>
    intro rest
    rw [List.replicate_succ, List.flatten_cons, List.append_assoc]
    simp only [readListM, hstep, except_bind_ok, ih rest, List.replicate_succ]

set_option maxRecDepth 4000 in
theorem c5_model_read (b : Nat) :
    Model.read (XnbAsset.read trivialExtReaders 1) c5Manifest (c5Stream b) =
      .ok (c5ModelVal b, []) := by
  have hbone := readListM_replicate
    (Bone.read (XnbAsset.read trivialExtReaders 1) c5Manifest) c5BoneBytes
    ⟨[], List.replicate 16 0⟩ c5_bone_step 256
  have hhier := readListM_replicate (BoneHierarchy.read 256) c5HierBytes
    ⟨5, []⟩ c5_hier_step 256
  have hdecls : ∀ rest : ByteStream,
      readListM (readVertexDeclAsset (XnbAsset.read trivialExtReaders 1) c5Manifest)
        0 rest = .ok ([], rest) := fun _ => rfl
  have hmesh : ∀ rest : ByteStream,
      readListM (Mesh.read (XnbAsset.read trivialExtReaders 1) c5Manifest) 1
        (c5MeshBytes b ++ rest) = .ok ([c5MeshVal b], rest) := by
    intro rest
    simp only [readListM, c5_mesh_step, except_bind_ok]
  simp only [Model.read, c5Stream, List.cons_append, List.nil_append, readU32le,
    Nat.reduceMul, Nat.reduceAdd, except_bind_ok, hbone, hhier, hdecls, hmesh,
    readBoneRef, Nat.reduceLeDiff, reduceIte, readU8, c5ModelVal]

set_option maxRecDepth 4000 in
theorem c5_model_read_spec (b : Nat) :
    Model.readSpecWidth (XnbAsset.read trivialExtReaders 1) c5Manifest (c5Stream b) =
      .error (.bail ("expected vertex buffer")) := by
  have hbone := readListM_replicate
    (Bone.read (XnbAsset.read trivialExtReaders 1) c5Manifest) c5BoneBytes
    ⟨[], List.replicate 16 0⟩ c5_bone_step 256
  have hhier := readListM_replicate (BoneHierarchy.read 256) c5HierBytes
    ⟨5, []⟩ c5_hier_step 256
  have hdecls : ∀ rest : ByteStream,
      readListM (readVertexDeclAsset (XnbAsset.read trivialExtReaders 1) c5Manifest)
        0 rest = .ok ([], rest) := fun _ => rfl
  have hmesh : ∀ rest : ByteStream,
      readListM (Mesh.readSpecWidth 256 (XnbAsset.read trivialExtReaders 1) c5Manifest)
        1 (c5MeshBytes b ++ rest) = .error (.bail ("expected vertex buffer")) := by
    intro rest
    simp only [readListM, c5_mesh_spec_step, except_bind_error]
  simp only [Model.readSpecWidth, c5Stream, List.cons_append, List.nil_append,
    readU32le, Nat.reduceMul, Nat.reduceAdd, except_bind_ok, hbone, hhier, hdecls,
    hmesh, except_bind_error]

/-- Counterexample for C5: on a 256-bone single-mesh stream the source decoder
reads the mesh's parent-bone index as ONE byte (here 7) and succeeds, while a
decoder following the claim (all bone-refs 4 bytes at 256 bones)
desynchronizes and fails; the two disagree on this input. -/
theorem mesh_parent_bone_width_counterexample :
    Model.read (XnbAsset.read trivialExtReaders 1) c5Manifest (c5Stream 7) =
      .ok (c5ModelVal 7, []) ∧
    (c5ModelVal 7).meshes.map (fun m => m.parent_bone_ref) = [7] ∧
    Model.readSpecWidth (XnbAsset.read trivialExtReaders 1) c5Manifest (c5Stream 7) =
      .error (.bail ("expected vertex buffer")) ∧
    Model.read (XnbAsset.read trivialExtReaders 1) c5Manifest (c5Stream 7) ≠
      Model.readSpecWidth (XnbAsset.read trivialExtReaders 1) c5Manifest (c5Stream 7) := by
  refine ⟨c5_model_read 7, by rfl, c5_model_read_spec 7, ?_⟩
  rw [c5_model_read 7, c5_model_read_spec 7]
  simp

/-- C5 (amended): `read_bone_ref` reads 1 byte when the bone count passed to
it is at most 255 and 4 bytes little-endian otherwise; `Model::read` passes
the model's bone count for the hierarchy refs and the root-bone ref, but
`Mesh::read` passes 0, so a mesh's parent-bone index is always read as a
single byte — on the 256-bone stream the decoded mesh parent ref is the
single byte `b` and the root ref is the 4-byte little-endian value 11. -/
theorem bone_ref_width_amended :
    (∀ (num_bones b : Nat) (rest : ByteStream), num_bones ≤ 255 →
      readBoneRef num_bones (b :: rest) = .ok (b, rest)) ∧
    (∀ (num_bones b0 b1 b2 b3 : Nat) (rest : ByteStream), 255 < num_bones →
      readBoneRef num_bones (b0 :: b1 :: b2 :: b3 :: rest) =
        .ok (b0 + 256 * b1 + 65536 * b2 + 16777216 * b3, rest)) ∧
    (∀ b : Nat,
      Model.read (XnbAsset.read trivialExtReaders 1) c5Manifest (c5Stream b) =
        .ok (c5ModelVal b, []) ∧
      (c5ModelVal b).meshes.map (fun m => m.parent_bone_ref) = [b] ∧
      (c5ModelVal b).root_bone_ref = 11) := by
  refine ⟨?_, ?_, ?_⟩
  · intro nb b rest h
    simp [readBoneRef, h, readU8]
  · intro nb b0 b1 b2 b3 rest h
    simp [readBoneRef, Nat.not_le.mpr h, readU32le]
  · intro b
    exact ⟨c5_model_read b, by rfl, by rfl⟩

/-- Witness for C5's amended theorem: both widths of `read_bone_ref` at
concrete inputs, plus the 256-bone stream with parent byte 7. -/
theorem bone_ref_width_amended_witness :
    readBoneRef 255 [9, 1, 1, 1] = .ok (9, [1, 1, 1]) ∧
    readBoneRef 256 [9, 1, 0, 0, 4] = .ok (9 + 256 * 1 + 65536 * 0 + 16777216 * 0, [4]) ∧
    (c5ModelVal 7).meshes.map (fun m => m.parent_bone_ref) = [7] :=
  ⟨bone_ref_width_amended.1 255 9 [1, 1, 1] (by decide),
   bone_ref_width_amended.2.1 256 9 1 0 0 [4] (by decide),
   (bone_ref_width_amended.2.2 7).2.1⟩

/-- Emitter spread shapes (`SpreadType`). -/
inductive SpreadType where
  | Arc : SpreadType
  | Cone : SpreadType
deriving DecidableEq, Repr

/-- A decoded continuous particle emitter (`ContinuousEmitter`). -/
structure ContinuousEmitter where
  name : String
  particles_per_second : VisualEffectProperty
  spread_type : SpreadType
  spread_arc_horizontal_angle_degrees : VisualEffectProperty
  spread_arc_horizontal_angle_dist : VisualEffectProperty
  spread_arc_vertical_angle_degrees_min : VisualEffectProperty
  spread_arc_vertical_angle_degrees_max : VisualEffectProperty
  spread_arc_vertical_angle_dist : VisualEffectProperty
  spread_cone_angle_degrees : VisualEffectProperty
  spread_cone_angle_dist : VisualEffectProperty
  position_x : VisualEffectProperty
  position_y : VisualEffectProperty
  position_z : VisualEffectProperty
  position_offset_x : VisualEffectProperty
  position_offset_y : VisualEffectProperty
  position_offset_z : VisualEffectProperty
  velocity_min : VisualEffectProperty
  velocity_max : VisualEffectProperty
  velocity_dist : VisualEffectProperty
  drag : VisualEffectProperty
  gravity : VisualEffectProperty
  rotation_degrees_min : VisualEffectProperty
  rotation_degrees_max : VisualEffectProperty
  rotation_speed_degrees_min : VisualEffectProperty
  rotation_speed_degrees_max : VisualEffectProperty
  rotation_ccw_chance : VisualEffectProperty
  size_start_min : VisualEffectProperty
  size_start_max : VisualEffectProperty
  size_start_dist : VisualEffectProperty
  size_end_min : VisualEffectProperty
  size_end_max : VisualEffectProperty
  size_end_dist : VisualEffectProperty
  lifetime_min : VisualEffectProperty
  lifetime_max : VisualEffectProperty
  lifetime_dist : VisualEffectProperty
  additive_blend : Bool
  hsv : Bool
  colorize : Bool
  hue_min : VisualEffectProperty
  hue_max : VisualEffectProperty
  hue_dist : VisualEffectProperty
  saturation_min : VisualEffectProperty
  saturation_max : VisualEffectProperty
  saturation_dist : VisualEffectProperty
  value_min : VisualEffectProperty
  value_max : VisualEffectProperty
  value_dist : VisualEffectProperty
  alpha_min : VisualEffectProperty
  alpha_max : VisualEffectProperty
  alpha_dist : VisualEffectProperty
  sprite : Nat
deriving DecidableEq, Repr

/-- The accumulator of `ContinuousEmitter::read`'s child loop: the `Option`
locals that later assignments overwrite and the final block defaults. -/
structure CEState where
  particles_per_second : Option VisualEffectProperty := none
  spread_type : Option SpreadType := none
  spread_arc_horizontal_angle_degrees : Option VisualEffectProperty := none
  spread_arc_horizontal_angle_dist : Option VisualEffectProperty := none
  spread_arc_vertical_angle_degrees_min : Option VisualEffectProperty := none
  spread_arc_vertical_angle_degrees_max : Option VisualEffectProperty := none
  spread_arc_vertical_angle_dist : Option VisualEffectProperty := none
  spread_cone_angle_degrees : Option VisualEffectProperty := none
  spread_cone_angle_dist : Option VisualEffectProperty := none
  position_x : Option VisualEffectProperty := none
  position_y : Option VisualEffectProperty := none
  position_z : Option VisualEffectProperty := none
  position_offset_x : Option VisualEffectProperty := none
  position_offset_y : Option VisualEffectProperty := none
  position_offset_z : Option VisualEffectProperty := none
  velocity_min : Option VisualEffectProperty := none
  velocity_max : Option VisualEffectProperty := none
  velocity_dist : Option VisualEffectProperty := none
  drag : Option VisualEffectProperty := none
  gravity : Option VisualEffectProperty := none
  rotation_degrees_min : Option VisualEffectProperty := none
  rotation_degrees_max : Option VisualEffectProperty := none
  rotation_speed_degrees_min : Option VisualEffectProperty := none
  rotation_speed_degrees_max : Option VisualEffectProperty := none
  rotation_ccw_chance : Option VisualEffectProperty := none
  size_start_min : Option VisualEffectProperty := none
  size_start_max : Option VisualEffectProperty := none
  size_start_dist : Option VisualEffectProperty := none
  size_end_min : Option VisualEffectProperty := none
  size_end_max : Option VisualEffectProperty := none
  size_end_dist : Option VisualEffectProperty := none
  lifetime_min : Option VisualEffectProperty := none
  lifetime_max : Option VisualEffectProperty := none
  lifetime_dist : Option VisualEffectProperty := none
  hue_min : Option VisualEffectProperty := none
  hue_max : Option VisualEffectProperty := none
  hue_dist : Option VisualEffectProperty := none
  saturation_min : Option VisualEffectProperty := none
  saturation_max : Option VisualEffectProperty := none
  saturation_dist : Option VisualEffectProperty := none
  value_min : Option VisualEffectProperty := none
  value_max : Option VisualEffectProperty := none
  value_dist : Option VisualEffectProperty := none
  alpha_min : Option VisualEffectProperty := none
  alpha_max : Option VisualEffectProperty := none
  alpha_dist : Option VisualEffectProperty := none
  additive_blend : Option Bool := none
  hsv : Option Bool := none
  colorize : Option Bool := none
  sprite : Option Nat := none

section EmitterRead

variable (parseF32 : String → Option ℚ) (parseU32 : String → Option Nat)
variable (parseU8 : String → Option Nat)

/-- One iteration of `ContinuousEmitter::read`'s child loop: recognized tags
update the state (later children overwrite earlier ones), `ColorControlAlpha`
sets the `hsv` flag with the opposite sense, unrecognized tags are skipped. -/
def readEmitterChild (st : CEState) (child : XmlNode) : Except DecodeErr CEState :=
  if child.tag = ("BlendMode") then
    match child.valueAttr with
    | none => .error (.bail ("expected <BlendMode> node to have a 'value' attribute"))
    | some v =>
      if asciiLower v = ("additive") then .ok { st with additive_blend := some true }
      else if asciiLower v = ("alpha") then .ok { st with additive_blend := some false }
      else .error (.bail ("expected <BlendMode> value to be alpha or additive"))
  else if child.tag = ("SpreadType") then
    match child.valueAttr with
    | none => .error (.bail ("expected <SpreadType> node to have a 'value' attribute"))
    | some v =>
      if asciiLower v = ("arc") then .ok { st with spread_type := some .Arc }
      else if asciiLower v = ("cone") then .ok { st with spread_type := some .Cone }
      else .error (.bail ("expected <SpreadType> value to be arc or cone"))
  else if child.tag = ("SpreadArcHorizontalAngle") then
    (VisualEffectProperty.read parseF32 parseU32 child).map
      (fun p => { st with spread_arc_horizontal_angle_degrees := some p })
  else if child.tag = ("SpreadArcHorizontalDistribution") then
    (VisualEffectProperty.read parseF32 parseU32 child).map
      (fun p => { st with spread_arc_horizontal_angle_dist := some p })
  else if child.tag = ("SpreadArcVerticalMin") then
    (VisualEffectProperty.read parseF32 parseU32 child).map
      (fun p => { st with spread_arc_vertical_angle_degrees_min := some p })
  else if child.tag = ("SpreadArcVerticalMax") then
    (VisualEffectProperty.read parseF32 parseU32 child).map
      (fun p => { st with spread_arc_vertical_angle_degrees_max := some p })
  else if child.tag = ("SpreadArcVerticalDistribution") then
    (VisualEffectProperty.read parseF32 parseU32 child).map
      (fun p => { st with spread_arc_vertical_angle_dist := some p })
  else if child.tag = ("SpreadConeAngle") then
    (VisualEffectProperty.read parseF32 parseU32 child).map
      (fun p => { st with spread_cone_angle_degrees := some p })
  else if child.tag = ("SpreadConeDistribution") then
    (VisualEffectProperty.read parseF32 parseU32 child).map
      (fun p => { st with spread_cone_angle_dist := some p })
  else if child.tag = ("PositionX") then
    (VisualEffectProperty.read parseF32 parseU32 child).map
      (fun p => { st with position_x := some p })
  else if child.tag = ("PositionY") then
    (VisualEffectProperty.read parseF32 parseU32 child).map
      (fun p => { st with position_y := some p })
  else if child.tag = ("PositionZ") then
    (VisualEffectProperty.read parseF32 parseU32 child).map
      (fun p => { st with position_z := some p })
  else if child.tag = ("PositionXOffset") then
    (VisualEffectProperty.read parseF32 parseU32 child).map
      (fun p => { st with position_offset_x := some p })
  else if child.tag = ("PositionYOffset") then
    (VisualEffectProperty.read parseF32 parseU32 child).map
      (fun p => { st with position_offset_y := some p })
  else if child.tag = ("PositionZOffset") then
    (VisualEffectProperty.read parseF32 parseU32 child).map
      (fun p => { st with position_offset_z := some p })
  else if child.tag = ("VelocityMin") then
    (VisualEffectProperty.read parseF32 parseU32 child).map
      (fun p => { st with velocity_min := some p })
  else if child.tag = ("VelocityMax") then
    (VisualEffectProperty.read parseF32 parseU32 child).map
      (fun p => { st with velocity_max := some p })
  else if child.tag = ("VelocityDist") then
    (VisualEffectProperty.read parseF32 parseU32 child).map
      (fun p => { st with velocity_dist := some p })
  else if child.tag = ("Drag") then
    (VisualEffectProperty.read parseF32 parseU32 child).map
      (fun p => { st with drag := some p })
  else if child.tag = ("Gravity") then
    (VisualEffectProperty.read parseF32 parseU32 child).map
      (fun p => { st with gravity := some p })
  else if child.tag = ("RotationMin") then
    (VisualEffectProperty.read parseF32 parseU32 child).map
      (fun p => { st with rotation_degrees_min := some p })
  else if child.tag = ("RotationMax") then
    (VisualEffectProperty.read parseF32 parseU32 child).map
      (fun p => { st with rotation_degrees_max := some p })
  else if child.tag = ("RotationSpeedMin") then
    (VisualEffectProperty.read parseF32 parseU32 child).map
      (fun p => { st with rotation_speed_degrees_min := some p })
  else if child.tag = ("RotationSpeedMax") then
    (VisualEffectProperty.read parseF32 parseU32 child).map
      (fun p => { st with rotation_speed_degrees_max := some p })
  else if child.tag = ("RotationPCCW") then
    (VisualEffectProperty.read parseF32 parseU32 child).map
      (fun p => { st with rotation_ccw_chance := some p })
  else if child.tag = ("SizeStartMin") then
    (VisualEffectProperty.read parseF32 parseU32 child).map
      (fun p => { st with size_start_min := some p })
  else if child.tag = ("SizeStartMax") then
    (VisualEffectProperty.read parseF32 parseU32 child).map
      (fun p => { st with size_start_max := some p })
  else if child.tag = ("SizeStartDist") then
    (VisualEffectProperty.read parseF32 parseU32 child).map
      (fun p => { st with size_start_dist := some p })
  else if child.tag = ("SizeEndMin") then
    (VisualEffectProperty.read parseF32 parseU32 child).map
      (fun p => { st with size_end_min := some p })
  else if child.tag = ("SizeEndMax") then
    (VisualEffectProperty.read parseF32 parseU32 child).map
      (fun p => { st with size_end_max := some p })
  else if child.tag = ("SizeEndDist") then
    (VisualEffectProperty.read parseF32 parseU32 child).map
      (fun p => { st with size_end_dist := some p })
  else if child.tag = ("LifeTimeMin") then
    (VisualEffectProperty.read parseF32 parseU32 child).map
      (fun p => { st with lifetime_min := some p })
  else if child.tag = ("LifeTimeMax") then
    (VisualEffectProperty.read parseF32 parseU32 child).map
      (fun p => { st with lifetime_max := some p })
  else if child.tag = ("LifeTimeDistribution") then
    (VisualEffectProperty.read parseF32 parseU32 child).map
      (fun p => { st with lifetime_dist := some p })
  else if child.tag = ("HSV") then
    match child.valueAttr with
    | none => .error (.bail ("expected <HSV> node to have a 'value' attribute"))
    | some v =>
      if asciiLower v = ("true") then .ok { st with hsv := some true }
      else if asciiLower v = ("false") then .ok { st with hsv := some false }
      else .error (.bail ("expected <HSV> value to be true or false"))
  else if child.tag = ("ColorControlAlpha") then
    match child.valueAttr with
    | none => .error (.bail ("expected <ColorControlAlpha> node to have a 'value' attribute"))
    | some v =>
      if asciiLower v = ("true") then .ok { st with hsv := some false }
      else if asciiLower v = ("false") then .ok { st with hsv := some true }
      else .error (.bail ("expected <ColorControlAlpha> value to be true or false"))
  else if child.tag = ("Colorize") then
    match child.valueAttr with
    | none => .error (.bail ("expected <Colorize> node to have a 'value' attribute"))
    | some v =>
      if asciiLower v = ("true") then .ok { st with colorize := some true }
      else if asciiLower v = ("false") then .ok { st with colorize := some false }
      else .error (.bail ("expected <Colorize> value to be true or false"))
  else if child.tag = ("HueMin") then
    (VisualEffectProperty.read parseF32 parseU32 child).map
      (fun p => { st with hue_min := some p })
  else if child.tag = ("HueMax") then
    (VisualEffectProperty.read parseF32 parseU32 child).map
      (fun p => { st with hue_max := some p })
  else if child.tag = ("HueDistribution") then
    (VisualEffectProperty.read parseF32 parseU32 child).map
      (fun p => { st with hue_dist := some p })
  else if child.tag = ("SatMin") then
    (VisualEffectProperty.read parseF32 parseU32 child).map
      (fun p => { st with saturation_min := some p })
  else if child.tag = ("SatMax") then
    (VisualEffectProperty.read parseF32 parseU32 child).map
      (fun p => { st with saturation_max := some p })
  else if child.tag = ("SatDistribution") then
    (VisualEffectProperty.read parseF32 parseU32 child).map
      (fun p => { st with saturation_dist := some p })
  else if child.tag = ("ValueMin") then
    (VisualEffectProperty.read parseF32 parseU32 child).map
      (fun p => { st with value_min := some p })
  else if child.tag = ("ValueMax") then
    (VisualEffectProperty.read parseF32 parseU32 child).map
      (fun p => { st with value_max := some p })
  else if child.tag = ("ValueDistribution") then
    (VisualEffectProperty.read parseF32 parseU32 child).map
      (fun p => { st with value_dist := some p })
  else if child.tag = ("AlphaMin") then
    (VisualEffectProperty.read parseF32 parseU32 child).map
      (fun p => { st with alpha_min := some p })
  else if child.tag = ("AlphaMax") then
    (VisualEffectProperty.read parseF32 parseU32 child).map
      (fun p => { st with alpha_max := some p })
  else if child.tag = ("AlphaDistribution") then
    (VisualEffectProperty.read parseF32 parseU32 child).map
      (fun p => { st with alpha_dist := some p })
  else if child.tag = ("Particle") then
    match child.valueAttr with
    | none => .error (.bail ("expected <Particle> node to have a 'value' attribute"))
    | some v =>
      match parseU8 v with
      | some sp => .ok { st with sprite := some sp }
      | none => .error (.bail ("unable to parse <Particle> value"))
  else if child.tag = ("ParticlesPerSecond") then
    (VisualEffectProperty.read parseF32 parseU32 child).map
      (fun p => { st with particles_per_second := some p })
  else .ok st

/-- `unwrap_or(VisualEffectProperty::Constant(k))`: the per-field default. -/
def defaultProp (o : Option VisualEffectProperty) (k : ℚ) : VisualEffectProperty :=
  o.getD (VisualEffectProperty.Constant k)

/-- The required-child checks and per-field defaults that close
`ContinuousEmitter::read`. -/
def finalizeEmitter (name : String) (st : CEState) :
    Except DecodeErr ContinuousEmitter :=
  match st.additive_blend with
  | none => .error (.bail ("expected <ContinuousEmitter> node to have a <BlendMode> child"))
  | some additive_blend =>
  match st.spread_type with
  | none => .error (.bail ("expected <ContinuousEmitter> node to have a <SpreadType> child"))
  | some spread_type =>
  match st.particles_per_second with
  | none => .error (.bail ("expected <ContinuousEmitter> node to have a <ParticlesPerSecond> child"))
  | some particles_per_second =>
  match st.sprite with
  | none => .error (.bail ("expected <ContinuousEmitter> node to have a <Particle> child"))
  | some sprite =>
  .ok (ContinuousEmitter.mk name particles_per_second spread_type
    (defaultProp st.spread_arc_horizontal_angle_degrees 0)
    (defaultProp st.spread_arc_horizontal_angle_dist 1)
    (defaultProp st.spread_arc_vertical_angle_degrees_min 0)
    (defaultProp st.spread_arc_vertical_angle_degrees_max 0)
    (defaultProp st.spread_arc_vertical_angle_dist 1)
    (defaultProp st.spread_cone_angle_degrees 0)
    (defaultProp st.spread_cone_angle_dist 1)
    (defaultProp st.position_x 0)
    (defaultProp st.position_y 0)
    (defaultProp st.position_z 0)
    (defaultProp st.position_offset_x 0)
    (defaultProp st.position_offset_y 0)
    (defaultProp st.position_offset_z 0)
    (defaultProp st.velocity_min 0)
    (defaultProp st.velocity_max 0)
    (defaultProp st.velocity_dist 1)
    (defaultProp st.drag 0)
    (defaultProp st.gravity 0)
    (defaultProp st.rotation_degrees_min 0)
    (defaultProp st.rotation_degrees_max 0)
    (defaultProp st.rotation_speed_degrees_min 0)
    (defaultProp st.rotation_speed_degrees_max 0)
    (defaultProp st.rotation_ccw_chance 50)
    (defaultProp st.size_start_min 1)
    (defaultProp st.size_start_max 1)
    (defaultProp st.size_start_dist 1)
    (defaultProp st.size_end_min 1)
    (defaultProp st.size_end_max 1)
    (defaultProp st.size_end_dist 1)
    (defaultProp st.lifetime_min 0)
    (defaultProp st.lifetime_max 0)
    (defaultProp st.lifetime_dist 1)
    additive_blend (st.hsv.getD false) (st.colorize.getD false)
    (defaultProp st.hue_min 0)
    (defaultProp st.hue_max 0)
    (defaultProp st.hue_dist 1)
    (defaultProp st.saturation_min 1)
    (defaultProp st.saturation_max 1)
    (defaultProp st.saturation_dist 1)
    (defaultProp st.value_min 1)
    (defaultProp st.value_max 1)
    (defaultProp st.value_dist 1)
    (defaultProp st.alpha_min 1)
    (defaultProp st.alpha_max 1)
    (defaultProp st.alpha_dist 1)
    sprite)

/-- `ContinuousEmitter::read`: requires the `name` attribute, folds the child
loop over the element children, then applies the required-child checks and
defaults. -/
def ContinuousEmitter.read (node : XmlNode) : Except DecodeErr ContinuousEmitter :=
  match node.attribute ("name") with
  | none => .error (.bail ("expected <ContinuousEmitter> node to have a 'name' attribute"))
  | some name => do
    let st ← node.children.foldlM (readEmitterChild parseF32 parseU32 parseU8) {}
    finalizeEmitter name st

end EmitterRead


/-- A `<ContinuousEmitter>` with a name attribute and well-formed `Particle`
and `ParticlesPerSecond` children, but no `BlendMode` (or `SpreadType`). -/
def c6NodeMissingBlend : XmlNode :=
  .elem ("ContinuousEmitter") [(("name"), ("em"))]
    [.elem ("Particle") [(("value"), ("3"))] [],
     .elem ("ParticlesPerSecond") [(("value"), ("5"))] []]

/-- Counterexample for C6: an emitter element with a name attribute and
well-formed `Particle` and `ParticlesPerSecond` children still fails to
decode, because `BlendMode` (and `SpreadType`) are also required. -/
theorem continuous_emitter_missing_blendmode_counterexample :
    ContinuousEmitter.read (fun s => (toyParseNat s).map (fun n => (n : ℚ)))
      toyParseNat toyParseNat c6NodeMissingBlend =
      .error (.bail ("expected <ContinuousEmitter> node to have a <BlendMode> child")) := by
  rfl

/-- C6 (amended): decoding a `<ContinuousEmitter>` succeeds exactly when the
`name` attribute and well-formed `BlendMode`, `SpreadType`, `Particle`, and
`ParticlesPerSecond` children are present — `BlendMode` and `SpreadType` are
required as well, not optional. Sufficiency: with exactly those four children
decoding succeeds and every other recognized property defaults to its
documented constant (sizes 1.0, lifetime distribution 1.0,
rotation-counterclockwise chance 50.0, and so on). Necessity: dropping the
`SpreadType`, `Particle`, or `ParticlesPerSecond` child, or the `name`
attribute, fails with the corresponding error, and a present `BlendMode`
child whose value is neither additive nor alpha fails too (dropping
`BlendMode` fails as well, refuting the original claim). -/
theorem continuous_emitter_required_children_and_defaults
    (pF32 : String → Option ℚ) (pU32 pU8 : String → Option Nat)
    (nm bmStr svStr spStr ppsStr w : String) (spriteVal : Nat) (ppsVal : ℚ)
    (hbm : asciiLower bmStr = ("additive") ∨ asciiLower bmStr = ("alpha"))
    (hsv2 : asciiLower svStr = ("arc") ∨ asciiLower svStr = ("cone"))
    (hsp : pU8 spStr = some spriteVal)
    (hpps : pF32 ppsStr = some ppsVal)
    (hw1 : ¬ asciiLower w = ("additive"))
    (hw2 : ¬ asciiLower w = ("alpha")) :
    (∃ em, ContinuousEmitter.read pF32 pU32 pU8
        (.elem ("ContinuousEmitter") [(("name"), nm)]
          [.elem ("BlendMode") [(("value"), bmStr)] [],
           .elem ("SpreadType") [(("value"), svStr)] [],
           .elem ("Particle") [(("value"), spStr)] [],
           .elem ("ParticlesPerSecond") [(("value"), ppsStr)] []]) = .ok em ∧
      em.name = nm ∧ em.sprite = spriteVal ∧
      em.particles_per_second = .Constant ppsVal ∧
      em.size_start_min = .Constant 1 ∧ em.size_start_max = .Constant 1 ∧
      em.size_start_dist = .Constant 1 ∧ em.size_end_min = .Constant 1 ∧
      em.size_end_max = .Constant 1 ∧ em.size_end_dist = .Constant 1 ∧
      em.lifetime_dist = .Constant 1 ∧ em.rotation_ccw_chance = .Constant 50 ∧
      em.velocity_dist = .Constant 1 ∧ em.lifetime_min = .Constant 0 ∧
      em.lifetime_max = .Constant 0 ∧ em.gravity = .Constant 0 ∧
      em.saturation_min = .Constant 1 ∧ em.value_min = .Constant 1 ∧
      em.alpha_min = .Constant 1 ∧ em.hue_dist = .Constant 1 ∧
      em.position_x = .Constant 0 ∧ em.hsv = false ∧ em.colorize = false) ∧
    ContinuousEmitter.read pF32 pU32 pU8
        (.elem ("ContinuousEmitter") [(("name"), nm)]
          [.elem ("BlendMode") [(("value"), bmStr)] [],
           .elem ("Particle") [(("value"), spStr)] [],
           .elem ("ParticlesPerSecond") [(("value"), ppsStr)] []]) =
      .error (.bail ("expected <ContinuousEmitter> node to have a <SpreadType> child")) ∧
    ContinuousEmitter.read pF32 pU32 pU8
        (.elem ("ContinuousEmitter") [(("name"), nm)]
          [.elem ("BlendMode") [(("value"), bmStr)] [],
           .elem ("SpreadType") [(("value"), svStr)] [],
           .elem ("ParticlesPerSecond") [(("value"), ppsStr)] []]) =
      .error (.bail ("expected <ContinuousEmitter> node to have a <Particle> child")) ∧
    ContinuousEmitter.read pF32 pU32 pU8
        (.elem ("ContinuousEmitter") [(("name"), nm)]
          [.elem ("BlendMode") [(("value"), bmStr)] [],
           .elem ("SpreadType") [(("value"), svStr)] [],
           .elem ("Particle") [(("value"), spStr)] []]) =
      .error (.bail ("expected <ContinuousEmitter> node to have a <ParticlesPerSecond> child")) ∧
    ContinuousEmitter.read pF32 pU32 pU8
        (.elem ("ContinuousEmitter") []
          [.elem ("BlendMode") [(("value"), bmStr)] [],
           .elem ("SpreadType") [(("value"), svStr)] [],
           .elem ("Particle") [(("value"), spStr)] [],
           .elem ("ParticlesPerSecond") [(("value"), ppsStr)] []]) =
      .error (.bail ("expected <ContinuousEmitter> node to have a 'name' attribute")) ∧
    ContinuousEmitter.read pF32 pU32 pU8
        (.elem ("ContinuousEmitter") [(("name"), nm)]
          [.elem ("BlendMode") [(("value"), w)] [],
           .elem ("SpreadType") [(("value"), svStr)] [],
           .elem ("Particle") [(("value"), spStr)] [],
           .elem ("ParticlesPerSecond") [(("value"), ppsStr)] []]) =
      .error (.bail ("expected <BlendMode> value to be alpha or additive")) := by
  have hval : asciiLower ("value") = ("value") := rfl
  refine ⟨?_, ?_, ?_, ?_, ?_, ?_⟩
  · rcases hbm with hbm | hbm <;> rcases hsv2 with hsv2 | hsv2 <;>
      simp [ContinuousEmitter.read, readEmitterChild, finalizeEmitter, defaultProp,
        VisualEffectProperty.read, XmlNode.attribute, XmlNode.valueAttr, XmlNode.tag,
        XmlNode.attrs, XmlNode.children, List.foldlM, List.find?, hval, hbm, hsv2,
        hsp, hpps]
  · rcases hbm with hbm | hbm <;>
      simp [ContinuousEmitter.read, readEmitterChild, finalizeEmitter,
        VisualEffectProperty.read, XmlNode.attribute, XmlNode.valueAttr, XmlNode.tag,
        XmlNode.attrs, XmlNode.children, List.foldlM, List.find?, hval, hbm,
        hsp, hpps]
  · rcases hbm with hbm | hbm <;> rcases hsv2 with hsv2 | hsv2 <;>
      simp [ContinuousEmitter.read, readEmitterChild, finalizeEmitter,
        VisualEffectProperty.read, XmlNode.attribute, XmlNode.valueAttr, XmlNode.tag,
        XmlNode.attrs, XmlNode.children, List.foldlM, List.find?, hval, hbm, hsv2,
        hpps]
  · rcases hbm with hbm | hbm <;> rcases hsv2 with hsv2 | hsv2 <;>
      simp [ContinuousEmitter.read, readEmitterChild, finalizeEmitter,
        VisualEffectProperty.read, XmlNode.attribute, XmlNode.valueAttr, XmlNode.tag,
        XmlNode.attrs, XmlNode.children, List.foldlM, List.find?, hval, hbm, hsv2,
        hsp]
  · simp [ContinuousEmitter.read, XmlNode.attribute, XmlNode.attrs, List.find?]
  · simp [ContinuousEmitter.read, readEmitterChild, XmlNode.attribute,
      XmlNode.valueAttr, XmlNode.tag, XmlNode.attrs, XmlNode.children,
      List.foldlM, List.find?, hval, hw1, hw2]

/-- Witness for the amended C6 theorem: with name, Additive BlendMode, Arc
SpreadType, Particle 3 and ParticlesPerSecond 5, decoding succeeds with the
documented defaults; dropping SpreadType, Particle, ParticlesPerSecond or the
name attribute fails with the corresponding error, as does a BlendMode whose
value is the unrecognized string Wat. -/
theorem continuous_emitter_required_children_and_defaults_witness :
    (∃ em, ContinuousEmitter.read
        (fun s => (toyParseNat s).map (fun n => (n : ℚ)))
        toyParseNat toyParseNat
        (.elem ("ContinuousEmitter") [(("name"), ("fx"))]
          [.elem ("BlendMode") [(("value"), ("Additive"))] [],
           .elem ("SpreadType") [(("value"), ("Arc"))] [],
           .elem ("Particle") [(("value"), ("3"))] [],
           .elem ("ParticlesPerSecond") [(("value"), ("5"))] []]) = .ok em ∧
      em.name = ("fx") ∧ em.sprite = 3 ∧
      em.particles_per_second = .Constant 5 ∧
      em.size_start_min = .Constant 1 ∧ em.size_start_max = .Constant 1 ∧
      em.size_start_dist = .Constant 1 ∧ em.size_end_min = .Constant 1 ∧
      em.size_end_max = .Constant 1 ∧ em.size_end_dist = .Constant 1 ∧
      em.lifetime_dist = .Constant 1 ∧ em.rotation_ccw_chance = .Constant 50 ∧
      em.velocity_dist = .Constant 1 ∧ em.lifetime_min = .Constant 0 ∧
      em.lifetime_max = .Constant 0 ∧ em.gravity = .Constant 0 ∧
      em.saturation_min = .Constant 1 ∧ em.value_min = .Constant 1 ∧
      em.alpha_min = .Constant 1 ∧ em.hue_dist = .Constant 1 ∧
      em.position_x = .Constant 0 ∧ em.hsv = false ∧ em.colorize = false) ∧
    ContinuousEmitter.read
        (fun s => (toyParseNat s).map (fun n => (n : ℚ)))
        toyParseNat toyParseNat
        (.elem ("ContinuousEmitter") [(("name"), ("fx"))]
          [.elem ("BlendMode") [(("value"), ("Additive"))] [],
           .elem ("Particle") [(("value"), ("3"))] [],
           .elem ("ParticlesPerSecond") [(("value"), ("5"))] []]) =
      .error (.bail ("expected <ContinuousEmitter> node to have a <SpreadType> child")) ∧
    ContinuousEmitter.read
        (fun s => (toyParseNat s).map (fun n => (n : ℚ)))
        toyParseNat toyParseNat
        (.elem ("ContinuousEmitter") [(("name"), ("fx"))]
          [.elem ("BlendMode") [(("value"), ("Additive"))] [],
           .elem ("SpreadType") [(("value"), ("Arc"))] [],
           .elem ("ParticlesPerSecond") [(("value"), ("5"))] []]) =
      .error (.bail ("expected <ContinuousEmitter> node to have a <Particle> child")) ∧
    ContinuousEmitter.read
        (fun s => (toyParseNat s).map (fun n => (n : ℚ)))
        toyParseNat toyParseNat
        (.elem ("ContinuousEmitter") [(("name"), ("fx"))]
          [.elem ("BlendMode") [(("value"), ("Additive"))] [],
           .elem ("SpreadType") [(("value"), ("Arc"))] [],
           .elem ("Particle") [(("value"), ("3"))] []]) =
      .error (.bail ("expected <ContinuousEmitter> node to have a <ParticlesPerSecond> child")) ∧
    ContinuousEmitter.read
        (fun s => (toyParseNat s).map (fun n => (n : ℚ)))
        toyParseNat toyParseNat
        (.elem ("ContinuousEmitter") []
          [.elem ("BlendMode") [(("value"), ("Additive"))] [],
           .elem ("SpreadType") [(("value"), ("Arc"))] [],
           .elem ("Particle") [(("value"), ("3"))] [],
           .elem ("ParticlesPerSecond") [(("value"), ("5"))] []]) =
      .error (.bail ("expected <ContinuousEmitter> node to have a 'name' attribute")) ∧
    ContinuousEmitter.read
        (fun s => (toyParseNat s).map (fun n => (n : ℚ)))
        toyParseNat toyParseNat
        (.elem ("ContinuousEmitter") [(("name"), ("fx"))]
          [.elem ("BlendMode") [(("value"), ("Wat"))] [],
           .elem ("SpreadType") [(("value"), ("Arc"))] [],
           .elem ("Particle") [(("value"), ("3"))] [],
           .elem ("ParticlesPerSecond") [(("value"), ("5"))] []]) =
      .error (.bail ("expected <BlendMode> value to be alpha or additive")) :=
  continuous_emitter_required_children_and_defaults
    (fun s => (toyParseNat s).map (fun n => (n : ℚ)))
    toyParseNat toyParseNat
    ("fx") ("Additive") ("Arc") ("3") ("5") ("Wat") 3 5
    (Or.inl rfl) (Or.inl rfl) (by simp [toyParseNat])
    (by simp [toyParseNat]) (by decide) (by decide)

end Aldrheim
